import Mathlib

/-!
Verification model of `ChannelMix` from
`audio_utils/include/audio_utils/ChannelMix.h` (Android system/media).

Embedding conventions:
* `float` samples and gains are modelled as exact rationals (`ℚ`);
  floating-point rounding is abstracted away, arithmetic is exact.
* Audio buffers are total functions `Nat → ℚ`; the C pointer advances
  `src += count; dst += 2` are modelled by composing with an index shift.
* `audio_channel_mask_t` (a 32-bit unsigned bit set) is modelled as `Nat`;
  the validity test `mask & ~((1 << FCC_24) - 1)` is nonzero exactly when
  the mask has a bit at position ≥ 24, i.e. when `2 ^ FCC_24 ≤ mask`.
-/

namespace ChannelMixModel

/-- Fixed channel count 2, from `channels.h` (`FCC_2`). -/
def FCC_2 : Nat := 2

/-- Fixed channel count 24, from `channels.h` (`FCC_24`). -/
def FCC_24 : Nat := 24

/-- Modelled from the spec: the channel position bit vocabulary
(`audio.h`, not under `src/`). The spec fixes the sample order by ascending
bit value as FL FR FC LFE BL BR (…) BC SL SR, matching the Android
channel-position constants used by the source. `AUDIO_CHANNEL_NONE = 0`. -/
def AUDIO_CHANNEL_NONE : Nat := 0

/-- Modelled from the spec: front-left position bit (lowest bit). -/
def AUDIO_CHANNEL_OUT_FRONT_LEFT : Nat := 1

/-- Modelled from the spec: front-right position bit. -/
def AUDIO_CHANNEL_OUT_FRONT_RIGHT : Nat := 2

/-- Modelled from the spec: front-center position bit. -/
def AUDIO_CHANNEL_OUT_FRONT_CENTER : Nat := 4

/-- Modelled from the spec: low-frequency position bit. -/
def AUDIO_CHANNEL_OUT_LOW_FREQUENCY : Nat := 8

/-- Modelled from the spec: back-left position bit. -/
def AUDIO_CHANNEL_OUT_BACK_LEFT : Nat := 16

/-- Modelled from the spec: back-right position bit. -/
def AUDIO_CHANNEL_OUT_BACK_RIGHT : Nat := 32

/-- Modelled from the spec: back-center position bit. -/
def AUDIO_CHANNEL_OUT_BACK_CENTER : Nat := 256

/-- Modelled from the spec: side-left position bit. -/
def AUDIO_CHANNEL_OUT_SIDE_LEFT : Nat := 512

/-- Modelled from the spec: side-right position bit. -/
def AUDIO_CHANNEL_OUT_SIDE_RIGHT : Nat := 1024

/-- Modelled from the spec: quad (back) mask = FL|FR|BL|BR = 0x33. -/
def AUDIO_CHANNEL_OUT_QUAD_BACK : Nat := 51

/-- Modelled from the spec: quad (side) mask = FL|FR|SL|SR = 0x603. -/
def AUDIO_CHANNEL_OUT_QUAD_SIDE : Nat := 1539

/-- Modelled from the spec: 5.1 (back) mask = FL|FR|FC|LFE|BL|BR = 0x3F. -/
def AUDIO_CHANNEL_OUT_5POINT1_BACK : Nat := 63

/-- Modelled from the spec: 5.1 (side) mask = FL|FR|FC|LFE|SL|SR = 0x60F. -/
def AUDIO_CHANNEL_OUT_5POINT1_SIDE : Nat := 1551

/-- Modelled from the spec: 7.1 mask = FL|FR|FC|LFE|BL|BR|SL|SR = 0x63F. -/
def AUDIO_CHANNEL_OUT_7POINT1 : Nat := 1599

/-- `MINUS_3_DB_IN_FLOAT = M_SQRT1_2` rounded to binary32, as the exact
dyadic rational `11863283 / 2^24 ≈ 0.70710678`. Its numeric value is
irrelevant to the algebraic claims; it only matters for concrete runs. -/
def MINUS_3_DB_IN_FLOAT : ℚ := 11863283 / 16777216

/-- `LIMIT_AMPLITUDE = 1.f` (0 dB). -/
def LIMIT_AMPLITUDE : ℚ := 1

/-- `clamp(value) = fmin(fmax(value, -LIMIT_AMPLITUDE), LIMIT_AMPLITUDE)`. -/
def clamp (value : ℚ) : ℚ := min (max value (-LIMIT_AMPLITUDE)) LIMIT_AMPLITUDE

/-- Mixer state: the private fields of class `ChannelMix`.
`mMatrix` is the 24×2 gain table (row `i` = `(mMatrix[i][0], mMatrix[i][1])`,
i.e. `(leftGain, rightGain)`); only rows `0..FCC_24-1` are meaningful. -/
structure ChannelMix where
  mMatrix : Nat → ℚ × ℚ
  mInputChannelMask : Nat
  mLastValidChannelIndexPlusOne : Nat
  mInputChannelCount : Nat

/-- The default-constructed mixer: mask `AUDIO_CHANNEL_NONE`, zero counts.
(The C++ default constructor leaves `mMatrix` uninitialized; we model the
indeterminate initial table as all zeros. No claim below depends on the
initial table contents beyond this choice.) -/
def ChannelMix.init : ChannelMix :=
  { mMatrix := fun _ => (0, 0)
    mInputChannelMask := AUDIO_CHANNEL_NONE
    mLastValidChannelIndexPlusOne := 0
    mInputChannelCount := 0 }

/-- Gain row assigned to one channel-position bit by the `switch` in
`setInputChannelMask`: left roles get `(0.5, 0)`, right roles `(0, 0.5)`,
center-ish roles `(0.5·g, 0.5·g)` with `g = MINUS_3_DB_IN_FLOAT`, and the
`default:` case `(0, 0)`. -/
def roleGains (bit : Nat) : ℚ × ℚ :=
  if bit = AUDIO_CHANNEL_OUT_FRONT_LEFT ∨ bit = AUDIO_CHANNEL_OUT_SIDE_LEFT ∨
      bit = AUDIO_CHANNEL_OUT_BACK_LEFT then
    (1/2, 0)
  else if bit = AUDIO_CHANNEL_OUT_FRONT_RIGHT ∨ bit = AUDIO_CHANNEL_OUT_SIDE_RIGHT ∨
      bit = AUDIO_CHANNEL_OUT_BACK_RIGHT then
    (0, 1/2)
  else if bit = AUDIO_CHANNEL_OUT_FRONT_CENTER ∨ bit = AUDIO_CHANNEL_OUT_LOW_FREQUENCY ∨
      bit = AUDIO_CHANNEL_OUT_BACK_CENTER then
    (1/2 * MINUS_3_DB_IN_FLOAT, 1/2 * MINUS_3_DB_IN_FLOAT)
  else
    (0, 0)

/-- Whether the bit hits one of the recognized `case` labels (the cases that
also update `mLastValidChannelIndexPlusOne`), as opposed to `default:`. -/
def recognizedBit (bit : Nat) : Bool :=
  decide (bit = AUDIO_CHANNEL_OUT_FRONT_LEFT ∨ bit = AUDIO_CHANNEL_OUT_SIDE_LEFT ∨
    bit = AUDIO_CHANNEL_OUT_BACK_LEFT ∨
    bit = AUDIO_CHANNEL_OUT_FRONT_RIGHT ∨ bit = AUDIO_CHANNEL_OUT_SIDE_RIGHT ∨
    bit = AUDIO_CHANNEL_OUT_BACK_RIGHT ∨
    bit = AUDIO_CHANNEL_OUT_FRONT_CENTER ∨ bit = AUDIO_CHANNEL_OUT_LOW_FREQUENCY ∨
    bit = AUDIO_CHANNEL_OUT_BACK_CENTER)

/-- The decoding loop of `setInputChannelMask`. The source iterates the set
bits of the (already validated, hence `< 2^24`) mask in ascending order via
lowest-bit extraction (`tmp & -tmp`, then `tmp ^= lowestBit`), consuming one
matrix index per set bit. We model the same iteration as a scan of the bit
positions `0..23` in ascending order that consumes an index exactly at the
set bits. The accumulator `(mat, lastValid, index)` carries the gain table
being overwritten in place, `mLastValidChannelIndexPlusOne` (only updated at
recognized bits) and the running channel index. -/
def decodeRows (mask : Nat) :
    List Nat → ((Nat → ℚ × ℚ) × Nat × Nat) → ((Nat → ℚ × ℚ) × Nat × Nat)
  | [], acc => acc
  | b :: bs, (mat, lastValid, index) =>
    if Nat.testBit mask b then
      decodeRows mask bs
        (fun j => if j = index then roleGains (2 ^ b) else mat j,
         if recognizedBit (2 ^ b) then index + 1 else lastValid,
         index + 1)
    else
      decodeRows mask bs (mat, lastValid, index)

/-- `bool ChannelMix::setInputChannelMask(audio_channel_mask_t)`.
Returns the C++ return value paired with the updated object state.
The branch structure follows the source: no-op fast exit when the mask is
unchanged; reject masks with a bit outside the 24 position slots
(`mask & ~((1 << FCC_24) - 1)` nonzero ⟺ `2 ^ FCC_24 ≤ mask`); otherwise
run the decoding loop and commit mask and channel count. -/
def ChannelMix.setInputChannelMask (s : ChannelMix) (inputChannelMask : Nat) :
    Bool × ChannelMix :=
  if s.mInputChannelMask = inputChannelMask then
    (true, s)
  else if 2 ^ FCC_24 ≤ inputChannelMask then
    (false, s)
  else
    let r := decodeRows inputChannelMask (List.range FCC_24)
      (s.mMatrix, s.mLastValidChannelIndexPlusOne, 0)
    (true,
      { mMatrix := r.1
        mInputChannelMask := inputChannelMask
        mLastValidChannelIndexPlusOne := r.2.1
        mInputChannelCount := r.2.2 })

/-- `audio_channel_mask_t ChannelMix::getInputChannelMask() const`. -/
def ChannelMix.getInputChannelMask (s : ChannelMix) : Nat :=
  s.mInputChannelMask

/-- The inner loop of `matrixProcess`:
`for (i = 0; i < mLastValidChannelIndexPlusOne; ++i) ch[c] += mMatrix[i][c]*src[i];`
starting from `ch[2]{}` (zero-initialized). `src` is the already-advanced
source pointer for the current frame. -/
def sumContrib (mat : Nat → ℚ × ℚ) (lastValid : Nat) (src : Nat → ℚ) : ℚ × ℚ :=
  (List.range lastValid).foldl
    (fun ch i => (ch.1 + (mat i).1 * src i, ch.2 + (mat i).2 * src i)) (0, 0)

/-- The frame loop of `matrixProcess` (after the mask guard): per frame,
run the inner gain loop, add the destination when accumulating, clamp and
store both stereo samples, then advance `src` by the input channel count
and `dst` by 2 (modelled as index shifts) and decrement `frameCount`.
Returns the final contents of the destination buffer. -/
def matrixLoop (mat : Nat → ℚ × ℚ) (lastValid count : Nat) (accumulate : Bool) :
    (src dst : Nat → ℚ) → Nat → (Nat → ℚ)
  | _, dst, 0 => dst
  | src, dst, frameCount + 1 =>
    let ch := sumContrib mat lastValid src
    let ch := if accumulate then (ch.1 + dst 0, ch.2 + dst 1) else ch
    let rest := matrixLoop mat lastValid count accumulate
      (fun i => src (count + i)) (fun i => dst (2 + i)) frameCount
    fun k => if k = 0 then clamp ch.1 else if k = 1 then clamp ch.2 else rest (k - 2)

/-- `bool ChannelMix::matrixProcess(const float*, float*, size_t, bool) const`:
fails (without touching `dst`) when the configured mask is
`AUDIO_CHANNEL_NONE`, otherwise runs the frame loop and succeeds. -/
def ChannelMix.matrixProcess (s : ChannelMix) (src dst : Nat → ℚ)
    (frameCount : Nat) (accumulate : Bool) : Bool × (Nat → ℚ) :=
  if s.mInputChannelMask = AUDIO_CHANNEL_NONE then (false, dst)
  else
    (true, matrixLoop s.mMatrix s.mLastValidChannelIndexPlusOne
      s.mInputChannelCount accumulate src dst frameCount)

/-- Shared tail of one `specificProcess` iteration: `ch[c] *= 0.5`, the
accumulate-or-overwrite clamped store of the stereo pair at `dst[0..1]`,
and the frames already written by the loop continuation (`rest`) behind the
advanced destination pointer. -/
def specificStore (accumulate : Bool) (ch0 ch1 : ℚ) (dst rest : Nat → ℚ) :
    Nat → ℚ :=
  let c0 := ch0 * (1/2)
  let c1 := ch1 * (1/2)
  fun k =>
    if k = 0 then (if accumulate then clamp (dst 0 + c0) else clamp c0)
    else if k = 1 then (if accumulate then clamp (dst 1 + c1) else clamp c1)
    else rest (k - 2)

/-- `static bool ChannelMix::specificProcess<CHANNEL_COUNT, ACCUMULATE>`:
the closed-form fast paths. Per frame: `ch` is the closed-form pair for the
channel count (4 = quad, 6 = 5.1, 8 = 7.1; any other count returns `false`
from inside the loop, before writing the current frame), both entries are
scaled by `0.5`, then accumulate-or-overwrite with clamping
(`specificStore`), and the pointers advance by `CHANNEL_COUNT` and 2
(modelled as index shifts in the recursive call). -/
def specificProcess (channelCount : Nat) (accumulate : Bool) :
    (src dst : Nat → ℚ) → Nat → Bool × (Nat → ℚ)
  | _, dst, 0 => (true, dst)
  | src, dst, frameCount + 1 =>
    if channelCount = 4 then
      -- QUAD: FL FR RL RR
      let r := specificProcess channelCount accumulate
        (fun i => src (channelCount + i)) (fun i => dst (2 + i)) frameCount
      (r.1, specificStore accumulate (src 0 + src 2) (src 1 + src 3) dst r.2)
    else if channelCount = 6 then
      -- 5.1: FL FR FC LFE RL RR
      let r := specificProcess channelCount accumulate
        (fun i => src (channelCount + i)) (fun i => dst (2 + i)) frameCount
      (r.1, specificStore accumulate
        (src 0 + src 4 + (src 2 + src 3) * MINUS_3_DB_IN_FLOAT)
        (src 1 + src 5 + (src 2 + src 3) * MINUS_3_DB_IN_FLOAT) dst r.2)
    else if channelCount = 8 then
      -- 7.1: FL FR FC LFE RL RR SL SR
      let r := specificProcess channelCount accumulate
        (fun i => src (channelCount + i)) (fun i => dst (2 + i)) frameCount
      (r.1, specificStore accumulate
        (src 0 + src 4 + src 6 + (src 2 + src 3) * MINUS_3_DB_IN_FLOAT)
        (src 1 + src 5 + src 7 + (src 2 + src 3) * MINUS_3_DB_IN_FLOAT) dst r.2)
    else
      (false, dst)

/-- `bool ChannelMix::processSwitch<ACCUMULATE>(const float*, float*, size_t)`:
dispatches the five Android-specific masks to their fast paths and falls
back to `matrixProcess` otherwise. -/
def ChannelMix.processSwitch (s : ChannelMix) (src dst : Nat → ℚ)
    (frameCount : Nat) (accumulate : Bool) : Bool × (Nat → ℚ) :=
  if s.mInputChannelMask = AUDIO_CHANNEL_OUT_QUAD_BACK ∨
      s.mInputChannelMask = AUDIO_CHANNEL_OUT_QUAD_SIDE then
    specificProcess 4 accumulate src dst frameCount
  else if s.mInputChannelMask = AUDIO_CHANNEL_OUT_5POINT1_BACK ∨
      s.mInputChannelMask = AUDIO_CHANNEL_OUT_5POINT1_SIDE then
    specificProcess 6 accumulate src dst frameCount
  else if s.mInputChannelMask = AUDIO_CHANNEL_OUT_7POINT1 then
    specificProcess 8 accumulate src dst frameCount
  else
    s.matrixProcess src dst frameCount accumulate

/-- `bool ChannelMix::process(const float*, float*, size_t, bool) const`:
the four-argument mix entry point (chooses the `ACCUMULATE` template
instantiation; both instantiations run `processSwitch`). -/
def ChannelMix.process (s : ChannelMix) (src dst : Nat → ℚ)
    (frameCount : Nat) (accumulate : Bool) : Bool × (Nat → ℚ) :=
  s.processSwitch src dst frameCount accumulate

/-- `bool ChannelMix::process(const float*, float*, size_t, bool, audio_channel_mask_t)`:
the five-argument convenience form
`setInputChannelMask(inputChannelMask) && process(src, dst, frameCount, accumulate)`.
Short-circuit: if configuration fails, the mix is not attempted. Returns
(result, updated mixer state, destination buffer). -/
def ChannelMix.processWithMask (s : ChannelMix) (src dst : Nat → ℚ)
    (frameCount : Nat) (accumulate : Bool) (inputChannelMask : Nat) :
    Bool × ChannelMix × (Nat → ℚ) :=
  let c := s.setInputChannelMask inputChannelMask
  if c.1 then
    let r := c.2.process src dst frameCount accumulate
    (r.1, c.2, r.2)
  else
    (false, c.2, dst)

/-- Per-frame pre-scaling value pair `ch` computed by the fast paths of
`specificProcess` for a supported channel count (4, 6, 8), reading the
current frame at `src 0 .. src (cc-1)`. -/
def fastFrame (channelCount : Nat) (src : Nat → ℚ) : ℚ × ℚ :=
  if channelCount = 4 then (src 0 + src 2, src 1 + src 3)
  else if channelCount = 6 then
    (src 0 + src 4 + (src 2 + src 3) * MINUS_3_DB_IN_FLOAT,
     src 1 + src 5 + (src 2 + src 3) * MINUS_3_DB_IN_FLOAT)
  else if channelCount = 8 then
    (src 0 + src 4 + src 6 + (src 2 + src 3) * MINUS_3_DB_IN_FLOAT,
     src 1 + src 5 + src 7 + (src 2 + src 3) * MINUS_3_DB_IN_FLOAT)
  else (0, 0)

/-- Per-frame pre-clamp contribution pair of the mix dispatch
(`processSwitch`): the scaled fast-path pair on the five fast-path masks,
and the gain-table dot products on the generic path. Derived bookkeeping
used to state closed-form lemmas about `process`. -/
def frameContrib (s : ChannelMix) (src : Nat → ℚ) (f : Nat) : ℚ × ℚ :=
  if s.mInputChannelMask = AUDIO_CHANNEL_OUT_QUAD_BACK ∨
      s.mInputChannelMask = AUDIO_CHANNEL_OUT_QUAD_SIDE then
    ((fastFrame 4 (fun i => src (f * 4 + i))).1 * (1/2),
     (fastFrame 4 (fun i => src (f * 4 + i))).2 * (1/2))
  else if s.mInputChannelMask = AUDIO_CHANNEL_OUT_5POINT1_BACK ∨
      s.mInputChannelMask = AUDIO_CHANNEL_OUT_5POINT1_SIDE then
    ((fastFrame 6 (fun i => src (f * 6 + i))).1 * (1/2),
     (fastFrame 6 (fun i => src (f * 6 + i))).2 * (1/2))
  else if s.mInputChannelMask = AUDIO_CHANNEL_OUT_7POINT1 then
    ((fastFrame 8 (fun i => src (f * 8 + i))).1 * (1/2),
     (fastFrame 8 (fun i => src (f * 8 + i))).2 * (1/2))
  else
    (∑ i ∈ Finset.range s.mLastValidChannelIndexPlusOne,
       (s.mMatrix i).1 * src (f * s.mInputChannelCount + i),
     ∑ i ∈ Finset.range s.mLastValidChannelIndexPlusOne,
       (s.mMatrix i).2 * src (f * s.mInputChannelCount + i))

/-- Swap the two halves of each consecutive index pair `(2j, 2j+1)` of a
buffer: for masks made only of mirrored left/right channel pairs (and for
the stereo output), this swaps each mirrored pair's samples. -/
def swapLR (g : Nat → ℚ) : Nat → ℚ :=
  fun k => if k % 2 = 0 then g (k + 1) else g (k - 1)

/-! ### Helper lemmas -/

lemma clamp_le_one (x : ℚ) : clamp x ≤ 1 := by
  simp [clamp, LIMIT_AMPLITUDE]

lemma neg_one_le_clamp (x : ℚ) : -1 ≤ clamp x := by
  unfold clamp LIMIT_AMPLITUDE
  exact le_min (le_max_right _ _) (by norm_num)

lemma clamp_eq_self (x : ℚ) (h1 : -1 ≤ x) (h2 : x ≤ 1) : clamp x = x := by
  simp [clamp, LIMIT_AMPLITUDE, max_eq_left h1, min_eq_left h2]

lemma clamp_eq_min_max (x : ℚ) : clamp x = min (max x (-1)) 1 := rfl

/-- The inner gain loop computes the pair of dot products over the first
`lastValid` matrix rows. -/
lemma sumContrib_eq (mat : Nat → ℚ × ℚ) (lastValid : Nat) (src : Nat → ℚ) :
    sumContrib mat lastValid src =
      (∑ i ∈ Finset.range lastValid, (mat i).1 * src i,
       ∑ i ∈ Finset.range lastValid, (mat i).2 * src i) := by
  induction lastValid with
  | zero => simp [sumContrib]
  | succ n ih =>
    have h : sumContrib mat (n + 1) src =
        ((sumContrib mat n src).1 + (mat n).1 * src n,
         (sumContrib mat n src).2 + (mat n).2 * src n) := by
      simp [sumContrib, List.range_succ]
    rw [h, ih]
    simp [Finset.sum_range_succ]

/-- Destination samples at index `≥ 2·frameCount` are not touched by the
generic frame loop. -/
lemma matrixLoop_untouched (mat : Nat → ℚ × ℚ) (lastValid count : Nat)
    (accumulate : Bool) (src dst : Nat → ℚ) (frameCount k : Nat)
    (hk : 2 * frameCount ≤ k) :
    matrixLoop mat lastValid count accumulate src dst frameCount k = dst k := by
  induction frameCount generalizing src dst k with
  | zero => rfl
  | succ n ih =>
    have hk0 : k ≠ 0 := by omega
    have hk1 : k ≠ 1 := by omega
    have hk2 : 2 * n ≤ k - 2 := by omega
    simp only [matrixLoop, hk0, hk1, if_false]
    rw [ih _ _ _ hk2]
    congr 1
    omega

/-- Closed form of the generic frame loop at even (left) output indices:
frame `f < frameCount` stores the clamped sum of the per-row left
contributions, plus the prior destination when accumulating. -/
lemma matrixLoop_left (mat : Nat → ℚ × ℚ) (lastValid count : Nat)
    (accumulate : Bool) (src dst : Nat → ℚ) (frameCount f : Nat)
    (hf : f < frameCount) :
    matrixLoop mat lastValid count accumulate src dst frameCount (2 * f) =
      clamp ((∑ i ∈ Finset.range lastValid, (mat i).1 * src (f * count + i)) +
        (if accumulate then dst (2 * f) else 0)) := by
  induction frameCount generalizing src dst f with
  | zero => omega
  | succ n ih =>
    match f with
    | 0 =>
      simp only [matrixLoop, sumContrib_eq]
      cases accumulate <;> simp
    | g + 1 =>
      have h0 : 2 * (g + 1) ≠ 0 := by omega
      have h1 : 2 * (g + 1) ≠ 1 := by omega
      simp only [matrixLoop, h0, h1, if_false]
      have h2 : 2 * (g + 1) - 2 = 2 * g := by omega
      rw [h2, ih _ _ g (by omega)]
      have hsrc : ∀ i, count + (g * count + i) = (g + 1) * count + i := by
        intro i; ring
      have hdst : 2 + 2 * g = 2 * (g + 1) := by omega
      simp only [hsrc, hdst]

/-- Closed form of the generic frame loop at odd (right) output indices. -/
lemma matrixLoop_right (mat : Nat → ℚ × ℚ) (lastValid count : Nat)
    (accumulate : Bool) (src dst : Nat → ℚ) (frameCount f : Nat)
    (hf : f < frameCount) :
    matrixLoop mat lastValid count accumulate src dst frameCount (2 * f + 1) =
      clamp ((∑ i ∈ Finset.range lastValid, (mat i).2 * src (f * count + i)) +
        (if accumulate then dst (2 * f + 1) else 0)) := by
  induction frameCount generalizing src dst f with
  | zero => omega
  | succ n ih =>
    match f with
    | 0 =>
      simp only [matrixLoop, sumContrib_eq]
      cases accumulate <;> simp
    | g + 1 =>
      have h0 : 2 * (g + 1) + 1 ≠ 0 := by omega
      have h1 : 2 * (g + 1) + 1 ≠ 1 := by omega
      simp only [matrixLoop, h0, h1, if_false]
      have h2 : 2 * (g + 1) + 1 - 2 = 2 * g + 1 := by omega
      rw [h2, ih _ _ g (by omega)]
      have hsrc : ∀ i, count + (g * count + i) = (g + 1) * count + i := by
        intro i; ring
      have hdst : 2 + (2 * g + 1) = 2 * (g + 1) + 1 := by omega
      simp only [hsrc, hdst]

/-- One-step unfolding of `specificProcess` for the supported channel
counts, phrased through `fastFrame`. -/
lemma specificProcess_succ (channelCount : Nat)
    (hcc : channelCount = 4 ∨ channelCount = 6 ∨ channelCount = 8)
    (accumulate : Bool) (src dst : Nat → ℚ) (frameCount : Nat) :
    specificProcess channelCount accumulate src dst (frameCount + 1) =
      ((specificProcess channelCount accumulate
          (fun i => src (channelCount + i)) (fun i => dst (2 + i)) frameCount).1,
       specificStore accumulate (fastFrame channelCount src).1
         (fastFrame channelCount src).2 dst
         (specificProcess channelCount accumulate
           (fun i => src (channelCount + i)) (fun i => dst (2 + i)) frameCount).2) := by
  rcases hcc with h | h | h <;> subst h <;> simp [specificProcess, fastFrame]

/-- The fast paths for the supported channel counts always report success. -/
lemma specificProcess_fst (channelCount : Nat)
    (hcc : channelCount = 4 ∨ channelCount = 6 ∨ channelCount = 8)
    (accumulate : Bool) (src dst : Nat → ℚ) (frameCount : Nat) :
    (specificProcess channelCount accumulate src dst frameCount).1 = true := by
  induction frameCount generalizing src dst with
  | zero => rfl
  | succ n ih =>
    rw [specificProcess_succ channelCount hcc]
    exact ih _ _

/-- Destination samples at index `≥ 2·frameCount` are not touched by the
fast paths. -/
lemma specificProcess_untouched (channelCount : Nat)
    (hcc : channelCount = 4 ∨ channelCount = 6 ∨ channelCount = 8)
    (accumulate : Bool) (src dst : Nat → ℚ) (frameCount k : Nat)
    (hk : 2 * frameCount ≤ k) :
    (specificProcess channelCount accumulate src dst frameCount).2 k = dst k := by
  induction frameCount generalizing src dst k with
  | zero => rfl
  | succ n ih =>
    rw [specificProcess_succ channelCount hcc]
    have hk0 : k ≠ 0 := by omega
    have hk1 : k ≠ 1 := by omega
    simp only [specificStore, hk0, hk1, if_false]
    rw [ih _ _ _ (by omega)]
    congr 1
    omega

/-- Closed form of the fast paths at even (left) output indices. -/
lemma specificProcess_left (channelCount : Nat)
    (hcc : channelCount = 4 ∨ channelCount = 6 ∨ channelCount = 8)
    (accumulate : Bool) (src dst : Nat → ℚ) (frameCount f : Nat)
    (hf : f < frameCount) :
    (specificProcess channelCount accumulate src dst frameCount).2 (2 * f) =
      (if accumulate then
        clamp (dst (2 * f) +
          (fastFrame channelCount (fun i => src (f * channelCount + i))).1 * (1/2))
      else
        clamp ((fastFrame channelCount (fun i => src (f * channelCount + i))).1 * (1/2))) := by
  induction frameCount generalizing src dst f with
  | zero => omega
  | succ n ih =>
    rw [specificProcess_succ channelCount hcc]
    match f with
    | 0 => simp [specificStore]
    | g + 1 =>
      have h0 : 2 * (g + 1) ≠ 0 := by omega
      have h1 : 2 * (g + 1) ≠ 1 := by omega
      simp only [specificStore, h0, h1, if_false]
      have h2 : 2 * (g + 1) - 2 = 2 * g := by omega
      rw [h2, ih _ _ g (by omega)]
      have hsrc : ∀ i, channelCount + (g * channelCount + i) =
          (g + 1) * channelCount + i := by
        intro i; ring
      have hdst : 2 + 2 * g = 2 * (g + 1) := by omega
      simp only [hsrc, hdst]

/-- Closed form of the fast paths at odd (right) output indices. -/
lemma specificProcess_right (channelCount : Nat)
    (hcc : channelCount = 4 ∨ channelCount = 6 ∨ channelCount = 8)
    (accumulate : Bool) (src dst : Nat → ℚ) (frameCount f : Nat)
    (hf : f < frameCount) :
    (specificProcess channelCount accumulate src dst frameCount).2 (2 * f + 1) =
      (if accumulate then
        clamp (dst (2 * f + 1) +
          (fastFrame channelCount (fun i => src (f * channelCount + i))).2 * (1/2))
      else
        clamp ((fastFrame channelCount (fun i => src (f * channelCount + i))).2 * (1/2))) := by
  induction frameCount generalizing src dst f with
  | zero => omega
  | succ n ih =>
    rw [specificProcess_succ channelCount hcc]
    match f with
    | 0 => simp [specificStore]
    | g + 1 =>
      have h0 : 2 * (g + 1) + 1 ≠ 0 := by omega
      have h1 : 2 * (g + 1) + 1 ≠ 1 := by omega
      simp only [specificStore, h0, h1, if_false]
      have h2 : 2 * (g + 1) + 1 - 2 = 2 * g + 1 := by omega
      rw [h2, ih _ _ g (by omega)]
      have hsrc : ∀ i, channelCount + (g * channelCount + i) =
          (g + 1) * channelCount + i := by
        intro i; ring
      have hdst : 2 + (2 * g + 1) = 2 * (g + 1) + 1 := by omega
      simp only [hsrc, hdst]

/-- The `default:` case of the classification `switch` assigns the zero
gain row. -/
lemma roleGains_unrecognized (bit : Nat) (h : recognizedBit bit = false) :
    roleGains bit = (0, 0) := by
  simp only [recognizedBit, decide_eq_false_iff_not] at h
  push_neg at h
  obtain ⟨h1, h2, h3, h4, h5, h6, h7, h8, h9⟩ := h
  simp [roleGains, h1, h2, h3, h4, h5, h6, h7, h8, h9]

/-- Decoding the empty mask changes nothing. -/
lemma decodeRows_zero (bs : List Nat) (acc : (Nat → ℚ × ℚ) × Nat × Nat) :
    decodeRows 0 bs acc = acc := by
  induction bs generalizing acc with
  | nil => rfl
  | cons b bs ih =>
    obtain ⟨mat, lastValid, index⟩ := acc
    simp [decodeRows, Nat.zero_testBit, ih]

/-- The channel index only grows along the decoding loop. -/
lemma decodeRows_index_mono (mask : Nat) (bs : List Nat)
    (mat : Nat → ℚ × ℚ) (lastValid index : Nat) :
    index ≤ (decodeRows mask bs (mat, lastValid, index)).2.2 := by
  induction bs generalizing mat lastValid index with
  | nil => exact le_refl _
  | cons b bs ih =>
    by_cases hb : Nat.testBit mask b
    · simp only [decodeRows, hb, if_true]
      exact le_trans (Nat.le_succ _) (ih _ _ _)
    · simp only [decodeRows, hb, if_false]
      exact ih _ _ _

/-- The decoding loop never writes a matrix row at an index at or beyond
its final channel index. -/
lemma decodeRows_mat_ge (mask : Nat) (bs : List Nat)
    (mat : Nat → ℚ × ℚ) (lastValid index j : Nat)
    (hj : (decodeRows mask bs (mat, lastValid, index)).2.2 ≤ j) :
    (decodeRows mask bs (mat, lastValid, index)).1 j = mat j := by
  induction bs generalizing mat lastValid index with
  | nil => rfl
  | cons b bs ih =>
    by_cases hb : Nat.testBit mask b
    · simp only [decodeRows, hb, if_true] at hj ⊢
      have hmono := decodeRows_index_mono mask bs
        (fun j => if j = index then roleGains (2 ^ b) else mat j)
        (if recognizedBit (2 ^ b) then index + 1 else lastValid) (index + 1)
      have hne : j ≠ index := by omega
      rw [ih _ _ _ hj]
      simp [hne]
    · simp only [decodeRows, hb, if_false] at hj ⊢
      exact ih _ _ _ hj

/-- Gain-table invariant carried by the decoding loop: rows between the
last-contributing index and the channel index are all zero. -/
lemma decodeRows_zero_rows (mask : Nat) (bs : List Nat)
    (mat : Nat → ℚ × ℚ) (lastValid index : Nat)
    (h : ∀ j, lastValid ≤ j → j < index → mat j = (0, 0)) :
    ∀ j, (decodeRows mask bs (mat, lastValid, index)).2.1 ≤ j →
      j < (decodeRows mask bs (mat, lastValid, index)).2.2 →
      (decodeRows mask bs (mat, lastValid, index)).1 j = (0, 0) := by
  induction bs generalizing mat lastValid index with
  | nil => exact h
  | cons b bs ih =>
    by_cases hb : Nat.testBit mask b
    · simp only [decodeRows, hb, if_true]
      apply ih
      intro j hj1 hj2
      by_cases hrec : recognizedBit (2 ^ b)
      · simp only [hrec, if_true] at hj1
        omega
      · simp only [hrec, if_false] at hj1 hj2 ⊢
        by_cases hje : j = index
        · subst hje
          simp [roleGains_unrecognized _ (by simpa using hrec)]
        · simp only [hje, if_false]
          exact h j hj1 (by omega)
    · simp only [decodeRows, hb, if_false]
      exact ih _ _ _ h

/-- If every set bit of the mask is unrecognized, the decoding loop leaves
`mLastValidChannelIndexPlusOne` unchanged. -/
lemma decodeRows_lastValid_const (mask : Nat) (bs : List Nat)
    (mat : Nat → ℚ × ℚ) (lastValid index : Nat)
    (h : ∀ b ∈ bs, Nat.testBit mask b → recognizedBit (2 ^ b) = false) :
    (decodeRows mask bs (mat, lastValid, index)).2.1 = lastValid := by
  induction bs generalizing mat lastValid index with
  | nil => rfl
  | cons b bs ih =>
    by_cases hb : Nat.testBit mask b
    · simp only [decodeRows, hb, if_true]
      rw [h b (by simp) hb]
      simp only [Bool.false_eq_true, if_false]
      exact ih _ _ _ (fun b' hb' => h b' (by simp [hb']))
    · simp only [decodeRows, hb, if_false]
      exact ih _ _ _ (fun b' hb' => h b' (by simp [hb']))

lemma range24 :
    List.range 24 =
      [0, 1, 2, 3, 4, 5, 6, 7, 8, 9, 10, 11, 12,
       13, 14, 15, 16, 17, 18, 19, 20, 21, 22, 23] := by
  decide

/-- Configuring `AUDIO_CHANNEL_OUT_QUAD_BACK` (FL FR BL BR): gain rows. -/
lemma configure_rows_quadBack (s : ChannelMix)
    (h : s.mInputChannelMask ≠ AUDIO_CHANNEL_OUT_QUAD_BACK) :
    (s.setInputChannelMask AUDIO_CHANNEL_OUT_QUAD_BACK).1 = true ∧
    (s.setInputChannelMask AUDIO_CHANNEL_OUT_QUAD_BACK).2.mInputChannelMask = 51 ∧
    (s.setInputChannelMask AUDIO_CHANNEL_OUT_QUAD_BACK).2.mInputChannelCount = 4 ∧
    (s.setInputChannelMask AUDIO_CHANNEL_OUT_QUAD_BACK).2.mLastValidChannelIndexPlusOne = 4 ∧
    (s.setInputChannelMask AUDIO_CHANNEL_OUT_QUAD_BACK).2.mMatrix 0 = (1/2, 0) ∧
    (s.setInputChannelMask AUDIO_CHANNEL_OUT_QUAD_BACK).2.mMatrix 1 = (0, 1/2) ∧
    (s.setInputChannelMask AUDIO_CHANNEL_OUT_QUAD_BACK).2.mMatrix 2 = (1/2, 0) ∧
    (s.setInputChannelMask AUDIO_CHANNEL_OUT_QUAD_BACK).2.mMatrix 3 = (0, 1/2) := by
  simp only [AUDIO_CHANNEL_OUT_QUAD_BACK] at h
  simp +decide [ChannelMix.setInputChannelMask, h, FCC_24, range24, decodeRows,
    roleGains, recognizedBit, AUDIO_CHANNEL_OUT_QUAD_BACK,
    AUDIO_CHANNEL_OUT_FRONT_LEFT, AUDIO_CHANNEL_OUT_FRONT_RIGHT,
    AUDIO_CHANNEL_OUT_FRONT_CENTER, AUDIO_CHANNEL_OUT_LOW_FREQUENCY,
    AUDIO_CHANNEL_OUT_BACK_LEFT, AUDIO_CHANNEL_OUT_BACK_RIGHT,
    AUDIO_CHANNEL_OUT_BACK_CENTER, AUDIO_CHANNEL_OUT_SIDE_LEFT,
    AUDIO_CHANNEL_OUT_SIDE_RIGHT]

/-- Configuring `AUDIO_CHANNEL_OUT_QUAD_SIDE` (FL FR SL SR): gain rows. -/
lemma configure_rows_quadSide (s : ChannelMix)
    (h : s.mInputChannelMask ≠ AUDIO_CHANNEL_OUT_QUAD_SIDE) :
    (s.setInputChannelMask AUDIO_CHANNEL_OUT_QUAD_SIDE).1 = true ∧
    (s.setInputChannelMask AUDIO_CHANNEL_OUT_QUAD_SIDE).2.mInputChannelMask = 1539 ∧
    (s.setInputChannelMask AUDIO_CHANNEL_OUT_QUAD_SIDE).2.mInputChannelCount = 4 ∧
    (s.setInputChannelMask AUDIO_CHANNEL_OUT_QUAD_SIDE).2.mLastValidChannelIndexPlusOne = 4 ∧
    (s.setInputChannelMask AUDIO_CHANNEL_OUT_QUAD_SIDE).2.mMatrix 0 = (1/2, 0) ∧
    (s.setInputChannelMask AUDIO_CHANNEL_OUT_QUAD_SIDE).2.mMatrix 1 = (0, 1/2) ∧
    (s.setInputChannelMask AUDIO_CHANNEL_OUT_QUAD_SIDE).2.mMatrix 2 = (1/2, 0) ∧
    (s.setInputChannelMask AUDIO_CHANNEL_OUT_QUAD_SIDE).2.mMatrix 3 = (0, 1/2) := by
  simp only [AUDIO_CHANNEL_OUT_QUAD_SIDE] at h
  simp +decide [ChannelMix.setInputChannelMask, h, FCC_24, range24, decodeRows,
    roleGains, recognizedBit, AUDIO_CHANNEL_OUT_QUAD_SIDE,
    AUDIO_CHANNEL_OUT_FRONT_LEFT, AUDIO_CHANNEL_OUT_FRONT_RIGHT,
    AUDIO_CHANNEL_OUT_FRONT_CENTER, AUDIO_CHANNEL_OUT_LOW_FREQUENCY,
    AUDIO_CHANNEL_OUT_BACK_LEFT, AUDIO_CHANNEL_OUT_BACK_RIGHT,
    AUDIO_CHANNEL_OUT_BACK_CENTER, AUDIO_CHANNEL_OUT_SIDE_LEFT,
    AUDIO_CHANNEL_OUT_SIDE_RIGHT]

/-- Configuring `AUDIO_CHANNEL_OUT_5POINT1_BACK` (FL FR FC LFE BL BR). -/
lemma configure_rows_fiveBack (s : ChannelMix)
    (h : s.mInputChannelMask ≠ AUDIO_CHANNEL_OUT_5POINT1_BACK) :
    (s.setInputChannelMask AUDIO_CHANNEL_OUT_5POINT1_BACK).1 = true ∧
    (s.setInputChannelMask AUDIO_CHANNEL_OUT_5POINT1_BACK).2.mInputChannelMask = 63 ∧
    (s.setInputChannelMask AUDIO_CHANNEL_OUT_5POINT1_BACK).2.mInputChannelCount = 6 ∧
    (s.setInputChannelMask AUDIO_CHANNEL_OUT_5POINT1_BACK).2.mLastValidChannelIndexPlusOne = 6 ∧
    (s.setInputChannelMask AUDIO_CHANNEL_OUT_5POINT1_BACK).2.mMatrix 0 = (1/2, 0) ∧
    (s.setInputChannelMask AUDIO_CHANNEL_OUT_5POINT1_BACK).2.mMatrix 1 = (0, 1/2) ∧
    (s.setInputChannelMask AUDIO_CHANNEL_OUT_5POINT1_BACK).2.mMatrix 2 =
      (1/2 * MINUS_3_DB_IN_FLOAT, 1/2 * MINUS_3_DB_IN_FLOAT) ∧
    (s.setInputChannelMask AUDIO_CHANNEL_OUT_5POINT1_BACK).2.mMatrix 3 =
      (1/2 * MINUS_3_DB_IN_FLOAT, 1/2 * MINUS_3_DB_IN_FLOAT) ∧
    (s.setInputChannelMask AUDIO_CHANNEL_OUT_5POINT1_BACK).2.mMatrix 4 = (1/2, 0) ∧
    (s.setInputChannelMask AUDIO_CHANNEL_OUT_5POINT1_BACK).2.mMatrix 5 = (0, 1/2) := by
  simp only [AUDIO_CHANNEL_OUT_5POINT1_BACK] at h
  simp +decide [ChannelMix.setInputChannelMask, h, FCC_24, range24, decodeRows,
    roleGains, recognizedBit, AUDIO_CHANNEL_OUT_5POINT1_BACK,
    AUDIO_CHANNEL_OUT_FRONT_LEFT, AUDIO_CHANNEL_OUT_FRONT_RIGHT,
    AUDIO_CHANNEL_OUT_FRONT_CENTER, AUDIO_CHANNEL_OUT_LOW_FREQUENCY,
    AUDIO_CHANNEL_OUT_BACK_LEFT, AUDIO_CHANNEL_OUT_BACK_RIGHT,
    AUDIO_CHANNEL_OUT_BACK_CENTER, AUDIO_CHANNEL_OUT_SIDE_LEFT,
    AUDIO_CHANNEL_OUT_SIDE_RIGHT]

/-- Configuring `AUDIO_CHANNEL_OUT_5POINT1_SIDE` (FL FR FC LFE SL SR). -/
lemma configure_rows_fiveSide (s : ChannelMix)
    (h : s.mInputChannelMask ≠ AUDIO_CHANNEL_OUT_5POINT1_SIDE) :
    (s.setInputChannelMask AUDIO_CHANNEL_OUT_5POINT1_SIDE).1 = true ∧
    (s.setInputChannelMask AUDIO_CHANNEL_OUT_5POINT1_SIDE).2.mInputChannelMask = 1551 ∧
    (s.setInputChannelMask AUDIO_CHANNEL_OUT_5POINT1_SIDE).2.mInputChannelCount = 6 ∧
    (s.setInputChannelMask AUDIO_CHANNEL_OUT_5POINT1_SIDE).2.mLastValidChannelIndexPlusOne = 6 ∧
    (s.setInputChannelMask AUDIO_CHANNEL_OUT_5POINT1_SIDE).2.mMatrix 0 = (1/2, 0) ∧
    (s.setInputChannelMask AUDIO_CHANNEL_OUT_5POINT1_SIDE).2.mMatrix 1 = (0, 1/2) ∧
    (s.setInputChannelMask AUDIO_CHANNEL_OUT_5POINT1_SIDE).2.mMatrix 2 =
      (1/2 * MINUS_3_DB_IN_FLOAT, 1/2 * MINUS_3_DB_IN_FLOAT) ∧
    (s.setInputChannelMask AUDIO_CHANNEL_OUT_5POINT1_SIDE).2.mMatrix 3 =
      (1/2 * MINUS_3_DB_IN_FLOAT, 1/2 * MINUS_3_DB_IN_FLOAT) ∧
    (s.setInputChannelMask AUDIO_CHANNEL_OUT_5POINT1_SIDE).2.mMatrix 4 = (1/2, 0) ∧
    (s.setInputChannelMask AUDIO_CHANNEL_OUT_5POINT1_SIDE).2.mMatrix 5 = (0, 1/2) := by
  simp only [AUDIO_CHANNEL_OUT_5POINT1_SIDE] at h
  simp +decide [ChannelMix.setInputChannelMask, h, FCC_24, range24, decodeRows,
    roleGains, recognizedBit, AUDIO_CHANNEL_OUT_5POINT1_SIDE,
    AUDIO_CHANNEL_OUT_FRONT_LEFT, AUDIO_CHANNEL_OUT_FRONT_RIGHT,
    AUDIO_CHANNEL_OUT_FRONT_CENTER, AUDIO_CHANNEL_OUT_LOW_FREQUENCY,
    AUDIO_CHANNEL_OUT_BACK_LEFT, AUDIO_CHANNEL_OUT_BACK_RIGHT,
    AUDIO_CHANNEL_OUT_BACK_CENTER, AUDIO_CHANNEL_OUT_SIDE_LEFT,
    AUDIO_CHANNEL_OUT_SIDE_RIGHT]

/-- Configuring `AUDIO_CHANNEL_OUT_7POINT1` (FL FR FC LFE BL BR SL SR). -/
lemma configure_rows_seven (s : ChannelMix)
    (h : s.mInputChannelMask ≠ AUDIO_CHANNEL_OUT_7POINT1) :
    (s.setInputChannelMask AUDIO_CHANNEL_OUT_7POINT1).1 = true ∧
    (s.setInputChannelMask AUDIO_CHANNEL_OUT_7POINT1).2.mInputChannelMask = 1599 ∧
    (s.setInputChannelMask AUDIO_CHANNEL_OUT_7POINT1).2.mInputChannelCount = 8 ∧
    (s.setInputChannelMask AUDIO_CHANNEL_OUT_7POINT1).2.mLastValidChannelIndexPlusOne = 8 ∧
    (s.setInputChannelMask AUDIO_CHANNEL_OUT_7POINT1).2.mMatrix 0 = (1/2, 0) ∧
    (s.setInputChannelMask AUDIO_CHANNEL_OUT_7POINT1).2.mMatrix 1 = (0, 1/2) ∧
    (s.setInputChannelMask AUDIO_CHANNEL_OUT_7POINT1).2.mMatrix 2 =
      (1/2 * MINUS_3_DB_IN_FLOAT, 1/2 * MINUS_3_DB_IN_FLOAT) ∧
    (s.setInputChannelMask AUDIO_CHANNEL_OUT_7POINT1).2.mMatrix 3 =
      (1/2 * MINUS_3_DB_IN_FLOAT, 1/2 * MINUS_3_DB_IN_FLOAT) ∧
    (s.setInputChannelMask AUDIO_CHANNEL_OUT_7POINT1).2.mMatrix 4 = (1/2, 0) ∧
    (s.setInputChannelMask AUDIO_CHANNEL_OUT_7POINT1).2.mMatrix 5 = (0, 1/2) ∧
    (s.setInputChannelMask AUDIO_CHANNEL_OUT_7POINT1).2.mMatrix 6 = (1/2, 0) ∧
    (s.setInputChannelMask AUDIO_CHANNEL_OUT_7POINT1).2.mMatrix 7 = (0, 1/2) := by
  simp only [AUDIO_CHANNEL_OUT_7POINT1] at h
  simp +decide [ChannelMix.setInputChannelMask, h, FCC_24, range24, decodeRows,
    roleGains, recognizedBit, AUDIO_CHANNEL_OUT_7POINT1,
    AUDIO_CHANNEL_OUT_FRONT_LEFT, AUDIO_CHANNEL_OUT_FRONT_RIGHT,
    AUDIO_CHANNEL_OUT_FRONT_CENTER, AUDIO_CHANNEL_OUT_LOW_FREQUENCY,
    AUDIO_CHANNEL_OUT_BACK_LEFT, AUDIO_CHANNEL_OUT_BACK_RIGHT,
    AUDIO_CHANNEL_OUT_BACK_CENTER, AUDIO_CHANNEL_OUT_SIDE_LEFT,
    AUDIO_CHANNEL_OUT_SIDE_RIGHT]

/-- Configuring the plain stereo mask FL|FR = 3: gain rows. -/
lemma configure_rows_stereo (s : ChannelMix) (h : s.mInputChannelMask ≠ 3) :
    (s.setInputChannelMask 3).1 = true ∧
    (s.setInputChannelMask 3).2.mInputChannelMask = 3 ∧
    (s.setInputChannelMask 3).2.mInputChannelCount = 2 ∧
    (s.setInputChannelMask 3).2.mLastValidChannelIndexPlusOne = 2 ∧
    (s.setInputChannelMask 3).2.mMatrix 0 = (1/2, 0) ∧
    (s.setInputChannelMask 3).2.mMatrix 1 = (0, 1/2) := by
  simp +decide [ChannelMix.setInputChannelMask, h, FCC_24, range24, decodeRows,
    roleGains, recognizedBit,
    AUDIO_CHANNEL_OUT_FRONT_LEFT, AUDIO_CHANNEL_OUT_FRONT_RIGHT,
    AUDIO_CHANNEL_OUT_FRONT_CENTER, AUDIO_CHANNEL_OUT_LOW_FREQUENCY,
    AUDIO_CHANNEL_OUT_BACK_LEFT, AUDIO_CHANNEL_OUT_BACK_RIGHT,
    AUDIO_CHANNEL_OUT_BACK_CENTER, AUDIO_CHANNEL_OUT_SIDE_LEFT,
    AUDIO_CHANNEL_OUT_SIDE_RIGHT]

/-- Configuring the back pair BL|BR = 48: gain rows. -/
lemma configure_rows_backPair (s : ChannelMix) (h : s.mInputChannelMask ≠ 48) :
    (s.setInputChannelMask 48).1 = true ∧
    (s.setInputChannelMask 48).2.mInputChannelMask = 48 ∧
    (s.setInputChannelMask 48).2.mInputChannelCount = 2 ∧
    (s.setInputChannelMask 48).2.mLastValidChannelIndexPlusOne = 2 ∧
    (s.setInputChannelMask 48).2.mMatrix 0 = (1/2, 0) ∧
    (s.setInputChannelMask 48).2.mMatrix 1 = (0, 1/2) := by
  simp +decide [ChannelMix.setInputChannelMask, h, FCC_24, range24, decodeRows,
    roleGains, recognizedBit,
    AUDIO_CHANNEL_OUT_FRONT_LEFT, AUDIO_CHANNEL_OUT_FRONT_RIGHT,
    AUDIO_CHANNEL_OUT_FRONT_CENTER, AUDIO_CHANNEL_OUT_LOW_FREQUENCY,
    AUDIO_CHANNEL_OUT_BACK_LEFT, AUDIO_CHANNEL_OUT_BACK_RIGHT,
    AUDIO_CHANNEL_OUT_BACK_CENTER, AUDIO_CHANNEL_OUT_SIDE_LEFT,
    AUDIO_CHANNEL_OUT_SIDE_RIGHT]

/-- Configuring the side pair SL|SR = 1536: gain rows. -/
lemma configure_rows_sidePair (s : ChannelMix) (h : s.mInputChannelMask ≠ 1536) :
    (s.setInputChannelMask 1536).1 = true ∧
    (s.setInputChannelMask 1536).2.mInputChannelMask = 1536 ∧
    (s.setInputChannelMask 1536).2.mInputChannelCount = 2 ∧
    (s.setInputChannelMask 1536).2.mLastValidChannelIndexPlusOne = 2 ∧
    (s.setInputChannelMask 1536).2.mMatrix 0 = (1/2, 0) ∧
    (s.setInputChannelMask 1536).2.mMatrix 1 = (0, 1/2) := by
  simp +decide [ChannelMix.setInputChannelMask, h, FCC_24, range24, decodeRows,
    roleGains, recognizedBit,
    AUDIO_CHANNEL_OUT_FRONT_LEFT, AUDIO_CHANNEL_OUT_FRONT_RIGHT,
    AUDIO_CHANNEL_OUT_FRONT_CENTER, AUDIO_CHANNEL_OUT_LOW_FREQUENCY,
    AUDIO_CHANNEL_OUT_BACK_LEFT, AUDIO_CHANNEL_OUT_BACK_RIGHT,
    AUDIO_CHANNEL_OUT_BACK_CENTER, AUDIO_CHANNEL_OUT_SIDE_LEFT,
    AUDIO_CHANNEL_OUT_SIDE_RIGHT]

/-- Configuring back+side pairs BL|BR|SL|SR = 1584: gain rows. -/
lemma configure_rows_backSide (s : ChannelMix) (h : s.mInputChannelMask ≠ 1584) :
    (s.setInputChannelMask 1584).1 = true ∧
    (s.setInputChannelMask 1584).2.mInputChannelMask = 1584 ∧
    (s.setInputChannelMask 1584).2.mInputChannelCount = 4 ∧
    (s.setInputChannelMask 1584).2.mLastValidChannelIndexPlusOne = 4 ∧
    (s.setInputChannelMask 1584).2.mMatrix 0 = (1/2, 0) ∧
    (s.setInputChannelMask 1584).2.mMatrix 1 = (0, 1/2) ∧
    (s.setInputChannelMask 1584).2.mMatrix 2 = (1/2, 0) ∧
    (s.setInputChannelMask 1584).2.mMatrix 3 = (0, 1/2) := by
  simp +decide [ChannelMix.setInputChannelMask, h, FCC_24, range24, decodeRows,
    roleGains, recognizedBit,
    AUDIO_CHANNEL_OUT_FRONT_LEFT, AUDIO_CHANNEL_OUT_FRONT_RIGHT,
    AUDIO_CHANNEL_OUT_FRONT_CENTER, AUDIO_CHANNEL_OUT_LOW_FREQUENCY,
    AUDIO_CHANNEL_OUT_BACK_LEFT, AUDIO_CHANNEL_OUT_BACK_RIGHT,
    AUDIO_CHANNEL_OUT_BACK_CENTER, AUDIO_CHANNEL_OUT_SIDE_LEFT,
    AUDIO_CHANNEL_OUT_SIDE_RIGHT]

/-- Configuring all three mirrored pairs FL|FR|BL|BR|SL|SR = 1587: gain rows. -/
lemma configure_rows_allPairs (s : ChannelMix) (h : s.mInputChannelMask ≠ 1587) :
    (s.setInputChannelMask 1587).1 = true ∧
    (s.setInputChannelMask 1587).2.mInputChannelMask = 1587 ∧
    (s.setInputChannelMask 1587).2.mInputChannelCount = 6 ∧
    (s.setInputChannelMask 1587).2.mLastValidChannelIndexPlusOne = 6 ∧
    (s.setInputChannelMask 1587).2.mMatrix 0 = (1/2, 0) ∧
    (s.setInputChannelMask 1587).2.mMatrix 1 = (0, 1/2) ∧
    (s.setInputChannelMask 1587).2.mMatrix 2 = (1/2, 0) ∧
    (s.setInputChannelMask 1587).2.mMatrix 3 = (0, 1/2) ∧
    (s.setInputChannelMask 1587).2.mMatrix 4 = (1/2, 0) ∧
    (s.setInputChannelMask 1587).2.mMatrix 5 = (0, 1/2) := by
  simp +decide [ChannelMix.setInputChannelMask, h, FCC_24, range24, decodeRows,
    roleGains, recognizedBit,
    AUDIO_CHANNEL_OUT_FRONT_LEFT, AUDIO_CHANNEL_OUT_FRONT_RIGHT,
    AUDIO_CHANNEL_OUT_FRONT_CENTER, AUDIO_CHANNEL_OUT_LOW_FREQUENCY,
    AUDIO_CHANNEL_OUT_BACK_LEFT, AUDIO_CHANNEL_OUT_BACK_RIGHT,
    AUDIO_CHANNEL_OUT_BACK_CENTER, AUDIO_CHANNEL_OUT_SIDE_LEFT,
    AUDIO_CHANNEL_OUT_SIDE_RIGHT]

/-- Configuring the front-left-only mask 1: gain rows (rows past the new
channel count keep their previous contents). -/
lemma configure_rows_frontLeftOnly (s : ChannelMix) (h : s.mInputChannelMask ≠ 1) :
    (s.setInputChannelMask 1).1 = true ∧
    (s.setInputChannelMask 1).2.mInputChannelMask = 1 ∧
    (s.setInputChannelMask 1).2.mInputChannelCount = 1 ∧
    (s.setInputChannelMask 1).2.mLastValidChannelIndexPlusOne = 1 ∧
    (s.setInputChannelMask 1).2.mMatrix 0 = (1/2, 0) ∧
    (∀ j, j ≠ 0 → (s.setInputChannelMask 1).2.mMatrix j = s.mMatrix j) := by
  simp +decide [ChannelMix.setInputChannelMask, h, FCC_24, range24, decodeRows,
    roleGains, recognizedBit,
    AUDIO_CHANNEL_OUT_FRONT_LEFT, AUDIO_CHANNEL_OUT_FRONT_RIGHT,
    AUDIO_CHANNEL_OUT_FRONT_CENTER, AUDIO_CHANNEL_OUT_LOW_FREQUENCY,
    AUDIO_CHANNEL_OUT_BACK_LEFT, AUDIO_CHANNEL_OUT_BACK_RIGHT,
    AUDIO_CHANNEL_OUT_BACK_CENTER, AUDIO_CHANNEL_OUT_SIDE_LEFT,
    AUDIO_CHANNEL_OUT_SIDE_RIGHT]
  exact fun j hj hj' => absurd hj' hj

/-- Configuring mask 64 (`FRONT_LEFT_OF_CENTER`, an in-range bit that hits
the `default:` case): the single decoded channel gets the zero gain row,
and because no recognized channel occurs, `mLastValidChannelIndexPlusOne`
keeps its previous (possibly stale) value. -/
lemma configure_rows_flc (s : ChannelMix) (h : s.mInputChannelMask ≠ 64) :
    (s.setInputChannelMask 64).1 = true ∧
    (s.setInputChannelMask 64).2.mInputChannelMask = 64 ∧
    (s.setInputChannelMask 64).2.mInputChannelCount = 1 ∧
    (s.setInputChannelMask 64).2.mLastValidChannelIndexPlusOne =
      s.mLastValidChannelIndexPlusOne ∧
    (s.setInputChannelMask 64).2.mMatrix 0 = (0, 0) ∧
    (∀ j, j ≠ 0 → (s.setInputChannelMask 64).2.mMatrix j = s.mMatrix j) := by
  simp +decide [ChannelMix.setInputChannelMask, h, FCC_24, range24, decodeRows,
    roleGains, recognizedBit,
    AUDIO_CHANNEL_OUT_FRONT_LEFT, AUDIO_CHANNEL_OUT_FRONT_RIGHT,
    AUDIO_CHANNEL_OUT_FRONT_CENTER, AUDIO_CHANNEL_OUT_LOW_FREQUENCY,
    AUDIO_CHANNEL_OUT_BACK_LEFT, AUDIO_CHANNEL_OUT_BACK_RIGHT,
    AUDIO_CHANNEL_OUT_BACK_CENTER, AUDIO_CHANNEL_OUT_SIDE_LEFT,
    AUDIO_CHANNEL_OUT_SIDE_RIGHT]
  exact fun j hj hj' => absurd hj' hj

/-- Configuring `AUDIO_CHANNEL_NONE` always succeeds and stores mask 0. -/
lemma configure_none (s : ChannelMix) :
    (s.setInputChannelMask AUDIO_CHANNEL_NONE).1 = true ∧
    (s.setInputChannelMask AUDIO_CHANNEL_NONE).2.mInputChannelMask = 0 := by
  by_cases h : s.mInputChannelMask = 0
  · simp [ChannelMix.setInputChannelMask, AUDIO_CHANNEL_NONE, h]
  · simp [ChannelMix.setInputChannelMask, AUDIO_CHANNEL_NONE, h, FCC_24,
      decodeRows_zero]

/-- Generic fast-path/matrix parity: if a mixer state has channel count and
last-contributing index equal to the fast path's channel count, and its gain
rows reproduce (in exact arithmetic) the fast path's scaled per-frame pair
on every frame slice, then `specificProcess` and `matrixProcess` agree
exactly (both components). -/
lemma specific_eq_matrix (s : ChannelMix) (cc : Nat)
    (hcc : cc = 4 ∨ cc = 6 ∨ cc = 8)
    (hmask : s.mInputChannelMask ≠ 0)
    (hlv : s.mLastValidChannelIndexPlusOne = cc)
    (hcount : s.mInputChannelCount = cc)
    (hsum : ∀ g : Nat → ℚ,
      (∑ i ∈ Finset.range cc, (s.mMatrix i).1 * g i) = (fastFrame cc g).1 * (1/2) ∧
      (∑ i ∈ Finset.range cc, (s.mMatrix i).2 * g i) = (fastFrame cc g).2 * (1/2))
    (accumulate : Bool) (src dst : Nat → ℚ) (frameCount : Nat) :
    specificProcess cc accumulate src dst frameCount =
      s.matrixProcess src dst frameCount accumulate := by
  unfold ChannelMix.matrixProcess AUDIO_CHANNEL_NONE
  rw [if_neg hmask, hlv, hcount]
  refine Prod.ext ?_ ?_
  · simp [specificProcess_fst cc hcc]
  · funext k
    simp only
    rcases lt_or_ge k (2 * frameCount) with hk | hk
    · rcases Nat.even_or_odd k with ⟨f, hf⟩ | ⟨f, hf⟩
      · have hkf : k = 2 * f := by omega
        subst hkf
        rw [specificProcess_left cc hcc accumulate src dst frameCount f (by omega),
          matrixLoop_left s.mMatrix cc cc accumulate src dst frameCount f (by omega),
          (hsum fun i => src (f * cc + i)).1]
        cases accumulate <;> simp [add_comm]
      · have hkf : k = 2 * f + 1 := by omega
        subst hkf
        rw [specificProcess_right cc hcc accumulate src dst frameCount f (by omega),
          matrixLoop_right s.mMatrix cc cc accumulate src dst frameCount f (by omega),
          (hsum fun i => src (f * cc + i)).2]
        cases accumulate <;> simp [add_comm]
    · rw [specificProcess_untouched cc hcc accumulate src dst frameCount k hk,
        matrixLoop_untouched s.mMatrix cc cc accumulate src dst frameCount k hk]

/-- `process` reports failure exactly when the configured mask is
`AUDIO_CHANNEL_NONE`. -/
lemma process_fst_iff (s : ChannelMix) (src dst : Nat → ℚ) (frameCount : Nat)
    (accumulate : Bool) :
    (s.process src dst frameCount accumulate).1 = false ↔
      s.mInputChannelMask = 0 := by
  unfold ChannelMix.process ChannelMix.processSwitch
  split_ifs with h1 h2 h3
  · rw [specificProcess_fst 4 (by norm_num)]
    rcases h1 with h | h <;>
      simp [h, AUDIO_CHANNEL_OUT_QUAD_BACK, AUDIO_CHANNEL_OUT_QUAD_SIDE]
  · rw [specificProcess_fst 6 (by norm_num)]
    rcases h2 with h | h <;>
      simp [h, AUDIO_CHANNEL_OUT_5POINT1_BACK, AUDIO_CHANNEL_OUT_5POINT1_SIDE]
  · rw [specificProcess_fst 8 (by norm_num)]
    simp [h3, AUDIO_CHANNEL_OUT_7POINT1]
  · unfold ChannelMix.matrixProcess AUDIO_CHANNEL_NONE
    by_cases h : s.mInputChannelMask = 0 <;> simp [h]

/-- A failing `process` (unconfigured mixer) leaves the destination buffer
untouched. -/
lemma process_mask_zero_dst (s : ChannelMix) (src dst : Nat → ℚ)
    (frameCount : Nat) (accumulate : Bool) (h : s.mInputChannelMask = 0) :
    (s.process src dst frameCount accumulate).2 = dst := by
  unfold ChannelMix.process ChannelMix.processSwitch ChannelMix.matrixProcess
  rw [h]
  simp [AUDIO_CHANNEL_OUT_QUAD_BACK, AUDIO_CHANNEL_OUT_QUAD_SIDE,
    AUDIO_CHANNEL_OUT_5POINT1_BACK, AUDIO_CHANNEL_OUT_5POINT1_SIDE,
    AUDIO_CHANNEL_OUT_7POINT1, AUDIO_CHANNEL_NONE]

/-- Destination samples at index `≥ 2·frameCount` are not touched by
`process`, on any path. -/
lemma process_untouched (s : ChannelMix) (src dst : Nat → ℚ)
    (frameCount : Nat) (accumulate : Bool) (k : Nat) (hk : 2 * frameCount ≤ k) :
    (s.process src dst frameCount accumulate).2 k = dst k := by
  unfold ChannelMix.process ChannelMix.processSwitch
  split_ifs with h1 h2 h3
  · exact specificProcess_untouched 4 (by norm_num) _ _ _ _ _ hk
  · exact specificProcess_untouched 6 (by norm_num) _ _ _ _ _ hk
  · exact specificProcess_untouched 8 (by norm_num) _ _ _ _ _ hk
  · unfold ChannelMix.matrixProcess
    split_ifs with h
    · rfl
    · exact matrixLoop_untouched _ _ _ _ _ _ _ _ hk

/-- Closed form of `process` at even (left) output indices: each written
left sample is the clamped per-frame contribution of the dispatched path,
plus the prior destination when accumulating. -/
lemma process_left (s : ChannelMix) (src dst : Nat → ℚ) (frameCount : Nat)
    (accumulate : Bool) (h : s.mInputChannelMask ≠ 0) (f : Nat)
    (hf : f < frameCount) :
    (s.process src dst frameCount accumulate).2 (2 * f) =
      clamp ((frameContrib s src f).1 + (if accumulate then dst (2 * f) else 0)) := by
  unfold ChannelMix.process ChannelMix.processSwitch
  by_cases h1 : s.mInputChannelMask = AUDIO_CHANNEL_OUT_QUAD_BACK ∨
      s.mInputChannelMask = AUDIO_CHANNEL_OUT_QUAD_SIDE
  · rw [if_pos h1, specificProcess_left 4 (by norm_num) _ _ _ _ _ hf]
    unfold frameContrib
    rw [if_pos h1]
    cases accumulate <;> simp [add_comm]
  rw [if_neg h1]
  by_cases h2 : s.mInputChannelMask = AUDIO_CHANNEL_OUT_5POINT1_BACK ∨
      s.mInputChannelMask = AUDIO_CHANNEL_OUT_5POINT1_SIDE
  · rw [if_pos h2, specificProcess_left 6 (by norm_num) _ _ _ _ _ hf]
    unfold frameContrib
    rw [if_neg h1, if_pos h2]
    cases accumulate <;> simp [add_comm]
  rw [if_neg h2]
  by_cases h3 : s.mInputChannelMask = AUDIO_CHANNEL_OUT_7POINT1
  · rw [if_pos h3, specificProcess_left 8 (by norm_num) _ _ _ _ _ hf]
    unfold frameContrib
    rw [if_neg h1, if_neg h2, if_pos h3]
    cases accumulate <;> simp [add_comm]
  rw [if_neg h3]
  unfold ChannelMix.matrixProcess AUDIO_CHANNEL_NONE
  rw [if_neg h]
  unfold frameContrib
  rw [if_neg h1, if_neg h2, if_neg h3]
  exact matrixLoop_left _ _ _ _ _ _ _ _ hf

/-- Closed form of `process` at odd (right) output indices. -/
lemma process_right (s : ChannelMix) (src dst : Nat → ℚ) (frameCount : Nat)
    (accumulate : Bool) (h : s.mInputChannelMask ≠ 0) (f : Nat)
    (hf : f < frameCount) :
    (s.process src dst frameCount accumulate).2 (2 * f + 1) =
      clamp ((frameContrib s src f).2 + (if accumulate then dst (2 * f + 1) else 0)) := by
  unfold ChannelMix.process ChannelMix.processSwitch
  by_cases h1 : s.mInputChannelMask = AUDIO_CHANNEL_OUT_QUAD_BACK ∨
      s.mInputChannelMask = AUDIO_CHANNEL_OUT_QUAD_SIDE
  · rw [if_pos h1, specificProcess_right 4 (by norm_num) _ _ _ _ _ hf]
    unfold frameContrib
    rw [if_pos h1]
    cases accumulate <;> simp [add_comm]
  rw [if_neg h1]
  by_cases h2 : s.mInputChannelMask = AUDIO_CHANNEL_OUT_5POINT1_BACK ∨
      s.mInputChannelMask = AUDIO_CHANNEL_OUT_5POINT1_SIDE
  · rw [if_pos h2, specificProcess_right 6 (by norm_num) _ _ _ _ _ hf]
    unfold frameContrib
    rw [if_neg h1, if_pos h2]
    cases accumulate <;> simp [add_comm]
  rw [if_neg h2]
  by_cases h3 : s.mInputChannelMask = AUDIO_CHANNEL_OUT_7POINT1
  · rw [if_pos h3, specificProcess_right 8 (by norm_num) _ _ _ _ _ hf]
    unfold frameContrib
    rw [if_neg h1, if_neg h2, if_pos h3]
    cases accumulate <;> simp [add_comm]
  rw [if_neg h3]
  unfold ChannelMix.matrixProcess AUDIO_CHANNEL_NONE
  rw [if_neg h]
  unfold frameContrib
  rw [if_neg h1, if_neg h2, if_neg h3]
  exact matrixLoop_right _ _ _ _ _ _ _ _ hf

/-- `frameContrib` of a mixer configured with the plain stereo mask 3:
half of each frame's left and right samples. -/
lemma frameContrib_stereo (s : ChannelMix) (h : s.mInputChannelMask ≠ 3)
    (src : Nat → ℚ) (f : Nat) :
    frameContrib ((s.setInputChannelMask 3).2) src f =
      (src (f * 2) * (1/2), src (f * 2 + 1) * (1/2)) := by
  obtain ⟨-, hm, hc, hl, h0, h1⟩ := configure_rows_stereo s h
  unfold frameContrib
  rw [hl, hc]
  rw [if_neg (by rw [hm]; unfold AUDIO_CHANNEL_OUT_QUAD_BACK AUDIO_CHANNEL_OUT_QUAD_SIDE; omega),
    if_neg (by rw [hm]; unfold AUDIO_CHANNEL_OUT_5POINT1_BACK AUDIO_CHANNEL_OUT_5POINT1_SIDE; omega),
    if_neg (by rw [hm]; unfold AUDIO_CHANNEL_OUT_7POINT1; omega)]
  simp [Finset.sum_range_succ, h0, h1]
  constructor <;> ring

/-- The no-op fast exit: requesting the already-configured mask returns
`true` and the state unchanged. -/
lemma configure_noop (s : ChannelMix) (m : Nat) (h : s.mInputChannelMask = m) :
    s.setInputChannelMask m = (true, s) := by
  unfold ChannelMix.setInputChannelMask
  rw [if_pos h]

lemma swapLR_even (g : Nat → ℚ) (n : Nat) (h : n % 2 = 0) :
    swapLR g n = g (n + 1) := by
  unfold swapLR
  rw [if_pos h]

lemma swapLR_odd (g : Nat → ℚ) (n : Nat) (h : n % 2 = 1) :
    swapLR g n = g (n - 1) := by
  unfold swapLR
  rw [if_neg (by omega)]

/-- Left dot product over an alternating `(1/2,0)/(0,1/2)` gain table:
only the even (left) samples contribute, at half gain. -/
lemma sum_pairs_left (mat : Nat → ℚ × ℚ) (n : Nat) (g : Nat → ℚ)
    (hrows : ∀ j, j < n → mat (2*j) = (1/2, 0) ∧ mat (2*j+1) = (0, 1/2)) :
    (∑ i ∈ Finset.range (2*n), (mat i).1 * g i) =
      ∑ j ∈ Finset.range n, g (2*j) * (1/2) := by
  induction n with
  | zero => simp
  | succ p ih =>
    rw [show 2*(p+1) = 2*p + 1 + 1 from by omega, Finset.sum_range_succ,
      Finset.sum_range_succ, Finset.sum_range_succ,
      ih (fun j hj => hrows j (by omega)),
      (hrows p (by omega)).1, (hrows p (by omega)).2]
    simp
    ring

/-- Right dot product over an alternating gain table: only the odd (right)
samples contribute, at half gain. -/
lemma sum_pairs_right (mat : Nat → ℚ × ℚ) (n : Nat) (g : Nat → ℚ)
    (hrows : ∀ j, j < n → mat (2*j) = (1/2, 0) ∧ mat (2*j+1) = (0, 1/2)) :
    (∑ i ∈ Finset.range (2*n), (mat i).2 * g i) =
      ∑ j ∈ Finset.range n, g (2*j+1) * (1/2) := by
  induction n with
  | zero => simp
  | succ p ih =>
    rw [show 2*(p+1) = 2*p + 1 + 1 from by omega, Finset.sum_range_succ,
      Finset.sum_range_succ, Finset.sum_range_succ,
      ih (fun j hj => hrows j (by omega)),
      (hrows p (by omega)).1, (hrows p (by omega)).2]
    simp
    ring

/-- Evaluation of `frameContrib` on the generic path. -/
lemma frameContrib_eq_sums (s' : ChannelMix)
    (hnf1 : ¬(s'.mInputChannelMask = AUDIO_CHANNEL_OUT_QUAD_BACK ∨
      s'.mInputChannelMask = AUDIO_CHANNEL_OUT_QUAD_SIDE))
    (hnf2 : ¬(s'.mInputChannelMask = AUDIO_CHANNEL_OUT_5POINT1_BACK ∨
      s'.mInputChannelMask = AUDIO_CHANNEL_OUT_5POINT1_SIDE))
    (hnf3 : ¬ s'.mInputChannelMask = AUDIO_CHANNEL_OUT_7POINT1)
    (src : Nat → ℚ) (f : Nat) :
    frameContrib s' src f =
      (∑ i ∈ Finset.range s'.mLastValidChannelIndexPlusOne,
         (s'.mMatrix i).1 * src (f * s'.mInputChannelCount + i),
       ∑ i ∈ Finset.range s'.mLastValidChannelIndexPlusOne,
         (s'.mMatrix i).2 * src (f * s'.mInputChannelCount + i)) := by
  unfold frameContrib
  rw [if_neg hnf1, if_neg hnf2, if_neg hnf3]

/-- Evaluation of `frameContrib` on the quad fast path. -/
lemma frameContrib_eq_fastquad (s' : ChannelMix)
    (hm : s'.mInputChannelMask = AUDIO_CHANNEL_OUT_QUAD_BACK ∨
      s'.mInputChannelMask = AUDIO_CHANNEL_OUT_QUAD_SIDE)
    (src : Nat → ℚ) (f : Nat) :
    frameContrib s' src f =
      ((src (f*4) + src (f*4+2)) * (1/2), (src (f*4+1) + src (f*4+3)) * (1/2)) := by
  unfold frameContrib
  rw [if_pos hm]
  unfold fastFrame
  norm_num

/-- For a generic-path mixer whose gain table is an alternating left/right
pair table (mirrored pairs only), swapping each input pair swaps the
per-frame contributions. -/
lemma frameContrib_swap_generic (s' : ChannelMix) (n : Nat)
    (hnf1 : ¬(s'.mInputChannelMask = AUDIO_CHANNEL_OUT_QUAD_BACK ∨
      s'.mInputChannelMask = AUDIO_CHANNEL_OUT_QUAD_SIDE))
    (hnf2 : ¬(s'.mInputChannelMask = AUDIO_CHANNEL_OUT_5POINT1_BACK ∨
      s'.mInputChannelMask = AUDIO_CHANNEL_OUT_5POINT1_SIDE))
    (hnf3 : ¬ s'.mInputChannelMask = AUDIO_CHANNEL_OUT_7POINT1)
    (hlv : s'.mLastValidChannelIndexPlusOne = 2*n)
    (hcount : s'.mInputChannelCount = 2*n)
    (hrows : ∀ j, j < n → s'.mMatrix (2*j) = (1/2, 0) ∧
      s'.mMatrix (2*j+1) = (0, 1/2))
    (src : Nat → ℚ) (f : Nat) :
    frameContrib s' (swapLR src) f =
      ((frameContrib s' src f).2, (frameContrib s' src f).1) := by
  rw [frameContrib_eq_sums s' hnf1 hnf2 hnf3 (swapLR src) f,
    frameContrib_eq_sums s' hnf1 hnf2 hnf3 src f, hlv, hcount,
    sum_pairs_left _ n _ hrows, sum_pairs_right _ n _ hrows,
    sum_pairs_left _ n _ hrows, sum_pairs_right _ n _ hrows]
  have heven : ∀ j : Nat, (f * (2*n) + 2*j) % 2 = 0 := by
    intro j
    have h2 : f * (2*n) = 2 * (f*n) := by ring
    omega
  refine Prod.ext ?_ ?_
  · dsimp only
    refine Finset.sum_congr rfl fun j hj => ?_
    rw [swapLR_even _ _ (heven j),
      show f * (2*n) + 2*j + 1 = f * (2*n) + (2*j+1) from by omega]
  · dsimp only
    refine Finset.sum_congr rfl fun j hj => ?_
    rw [swapLR_odd _ _ (by have := heven j; omega),
      show f * (2*n) + (2*j+1) - 1 = f * (2*n) + 2*j from by omega]

/-- For the quad fast path, swapping each input pair swaps the per-frame
contributions. -/
lemma frameContrib_swap_fastquad (s' : ChannelMix)
    (hm : s'.mInputChannelMask = AUDIO_CHANNEL_OUT_QUAD_BACK ∨
      s'.mInputChannelMask = AUDIO_CHANNEL_OUT_QUAD_SIDE)
    (src : Nat → ℚ) (f : Nat) :
    frameContrib s' (swapLR src) f =
      ((frameContrib s' src f).2, (frameContrib s' src f).1) := by
  rw [frameContrib_eq_fastquad s' hm (swapLR src) f,
    frameContrib_eq_fastquad s' hm src f,
    swapLR_even _ (f*4) (by omega),
    swapLR_even _ (f*4+2) (by omega),
    swapLR_odd _ (f*4+1) (by omega),
    swapLR_odd _ (f*4+3) (by omega),
    show f*4+1-1 = f*4 from by omega,
    show f*4+3-1 = f*4+2 from by omega,
    show f*4+2+1 = f*4+3 from by omega]

/-- If the per-frame contributions swap under the pairwise input swap,
mixing the swapped input into the swapped destination yields the swapped
output (on every written sample). -/
lemma process_swap_of_contrib (s' : ChannelMix)
    (hmask : s'.mInputChannelMask ≠ 0) (src dst : Nat → ℚ)
    (frameCount : Nat) (accumulate : Bool)
    (hswap : ∀ f, frameContrib s' (swapLR src) f =
      ((frameContrib s' src f).2, (frameContrib s' src f).1)) :
    ∀ k, k < 2 * frameCount →
      (s'.process (swapLR src) (swapLR dst) frameCount accumulate).2 k =
        swapLR ((s'.process src dst frameCount accumulate).2) k := by
  intro k hk
  rcases Nat.even_or_odd k with ⟨f, hf⟩ | ⟨f, hf⟩
  · have hkf : k = 2 * f := by omega
    subst hkf
    rw [swapLR_even ((s'.process src dst frameCount accumulate).2) (2*f) (by omega),
      process_right s' src dst frameCount accumulate hmask f (by omega),
      process_left s' (swapLR src) (swapLR dst) frameCount accumulate hmask f (by omega),
      hswap f,
      swapLR_even dst (2*f) (by omega)]
  · have hkf : k = 2 * f + 1 := by omega
    subst hkf
    rw [swapLR_odd ((s'.process src dst frameCount accumulate).2) (2*f+1) (by omega),
      show 2*f+1-1 = 2*f from by omega,
      process_left s' src dst frameCount accumulate hmask f (by omega),
      process_right s' (swapLR src) (swapLR dst) frameCount accumulate hmask f (by omega),
      hswap f,
      swapLR_odd dst (2*f+1) (by omega),
      show 2*f+1-1 = 2*f from by omega]

/-! ### Claim theorems -/

/-- C1: for every mask handled by a fast path (QUAD_BACK, QUAD_SIDE,
5POINT1_BACK, 5POINT1_SIDE, 7POINT1), for every source, destination,
frame count and accumulate flag, the fast-path mixer `specificProcess`
(with the channel count the dispatch selects for that mask) produces
exactly the same result — success flag and every destination sample — as
the generic `matrixProcess` run on a mixer configured with that mask
(exact arithmetic over the ℚ embedding). The hypothesis that the prior
mask differs from the configured one only excludes the no-op fast exit,
which rebuilds nothing. -/
theorem C1_fast_path_equals_matrix (s : ChannelMix) (src dst : Nat → ℚ)
    (frameCount : Nat) (accumulate : Bool) :
    (s.mInputChannelMask ≠ AUDIO_CHANNEL_OUT_QUAD_BACK →
      specificProcess 4 accumulate src dst frameCount =
        ((s.setInputChannelMask AUDIO_CHANNEL_OUT_QUAD_BACK).2).matrixProcess
          src dst frameCount accumulate) ∧
    (s.mInputChannelMask ≠ AUDIO_CHANNEL_OUT_QUAD_SIDE →
      specificProcess 4 accumulate src dst frameCount =
        ((s.setInputChannelMask AUDIO_CHANNEL_OUT_QUAD_SIDE).2).matrixProcess
          src dst frameCount accumulate) ∧
    (s.mInputChannelMask ≠ AUDIO_CHANNEL_OUT_5POINT1_BACK →
      specificProcess 6 accumulate src dst frameCount =
        ((s.setInputChannelMask AUDIO_CHANNEL_OUT_5POINT1_BACK).2).matrixProcess
          src dst frameCount accumulate) ∧
    (s.mInputChannelMask ≠ AUDIO_CHANNEL_OUT_5POINT1_SIDE →
      specificProcess 6 accumulate src dst frameCount =
        ((s.setInputChannelMask AUDIO_CHANNEL_OUT_5POINT1_SIDE).2).matrixProcess
          src dst frameCount accumulate) ∧
    (s.mInputChannelMask ≠ AUDIO_CHANNEL_OUT_7POINT1 →
      specificProcess 8 accumulate src dst frameCount =
        ((s.setInputChannelMask AUDIO_CHANNEL_OUT_7POINT1).2).matrixProcess
          src dst frameCount accumulate) := by
  refine ⟨?_, ?_, ?_, ?_, ?_⟩
  · intro h
    obtain ⟨-, hm, hc, hl, h0, h1, h2, h3⟩ := configure_rows_quadBack s h
    refine specific_eq_matrix _ 4 (by norm_num) (by rw [hm]; norm_num) hl hc
      ?_ accumulate src dst frameCount
    intro g
    constructor <;>
      · simp [Finset.sum_range_succ, h0, h1, h2, h3, fastFrame]
        ring
  · intro h
    obtain ⟨-, hm, hc, hl, h0, h1, h2, h3⟩ := configure_rows_quadSide s h
    refine specific_eq_matrix _ 4 (by norm_num) (by rw [hm]; norm_num) hl hc
      ?_ accumulate src dst frameCount
    intro g
    constructor <;>
      · simp [Finset.sum_range_succ, h0, h1, h2, h3, fastFrame]
        ring
  · intro h
    obtain ⟨-, hm, hc, hl, h0, h1, h2, h3, h4, h5⟩ := configure_rows_fiveBack s h
    refine specific_eq_matrix _ 6 (by norm_num) (by rw [hm]; norm_num) hl hc
      ?_ accumulate src dst frameCount
    intro g
    constructor <;>
      · simp [Finset.sum_range_succ, h0, h1, h2, h3, h4, h5, fastFrame]
        ring
  · intro h
    obtain ⟨-, hm, hc, hl, h0, h1, h2, h3, h4, h5⟩ := configure_rows_fiveSide s h
    refine specific_eq_matrix _ 6 (by norm_num) (by rw [hm]; norm_num) hl hc
      ?_ accumulate src dst frameCount
    intro g
    constructor <;>
      · simp [Finset.sum_range_succ, h0, h1, h2, h3, h4, h5, fastFrame]
        ring
  · intro h
    obtain ⟨-, hm, hc, hl, h0, h1, h2, h3, h4, h5, h6, h7⟩ := configure_rows_seven s h
    refine specific_eq_matrix _ 8 (by norm_num) (by rw [hm]; norm_num) hl hc
      ?_ accumulate src dst frameCount
    intro g
    constructor <;>
      · simp [Finset.sum_range_succ, h0, h1, h2, h3, h4, h5, h6, h7, fastFrame]
        ring

/-- C4: the four-argument `process` returns `false` exactly when the
configured mask is `AUDIO_CHANNEL_NONE`, and a failing call writes no
destination sample (the destination buffer is returned unchanged). -/
theorem C4_process_fails_iff_unconfigured (s : ChannelMix) (src dst : Nat → ℚ)
    (frameCount : Nat) (accumulate : Bool) :
    ((s.process src dst frameCount accumulate).1 = false ↔
      s.mInputChannelMask = AUDIO_CHANNEL_NONE) ∧
    ((s.process src dst frameCount accumulate).1 = false →
      (s.process src dst frameCount accumulate).2 = dst) := by
  constructor
  · unfold AUDIO_CHANNEL_NONE
    exact process_fst_iff s src dst frameCount accumulate
  · intro hf
    exact process_mask_zero_dst s src dst frameCount accumulate
      ((process_fst_iff s src dst frameCount accumulate).mp hf)

/-- C4 witness: an unconfigured (default) mixer fails and leaves a concrete
destination buffer unchanged. -/
theorem C4_process_fails_iff_unconfigured_witness :
    (ChannelMix.init.process (fun _ => 1) (fun _ => 5) 3 true).1 = false ∧
    (ChannelMix.init.process (fun _ => 1) (fun _ => 5) 3 true).2 = fun _ => 5 := by
  have h := C4_process_fails_iff_unconfigured ChannelMix.init
    (fun _ => 1) (fun _ => 5) 3 true
  have hfalse := h.1.mpr rfl
  exact ⟨hfalse, h.2 hfalse⟩

/-- C5: for a configured mixer on the generic matrix path, frame `f` stores
`clamp((accumulate ? dst : 0) + Σ_{i<lastValid} gain·src)` at both stereo
outputs, and exactly the `2·frameCount` destination samples are written
(indices beyond are untouched; the source is a read-only function in this
embedding). -/
theorem C5_matrix_frame_formula (s : ChannelMix) (src dst : Nat → ℚ)
    (frameCount : Nat) (accumulate : Bool)
    (h : s.mInputChannelMask ≠ AUDIO_CHANNEL_NONE) :
    (s.matrixProcess src dst frameCount accumulate).1 = true ∧
    (∀ f, f < frameCount →
      (s.matrixProcess src dst frameCount accumulate).2 (2 * f) =
        clamp ((if accumulate then dst (2 * f) else 0) +
          ∑ i ∈ Finset.range s.mLastValidChannelIndexPlusOne,
            (s.mMatrix i).1 * src (f * s.mInputChannelCount + i)) ∧
      (s.matrixProcess src dst frameCount accumulate).2 (2 * f + 1) =
        clamp ((if accumulate then dst (2 * f + 1) else 0) +
          ∑ i ∈ Finset.range s.mLastValidChannelIndexPlusOne,
            (s.mMatrix i).2 * src (f * s.mInputChannelCount + i))) ∧
    (∀ k, 2 * frameCount ≤ k →
      (s.matrixProcess src dst frameCount accumulate).2 k = dst k) := by
  unfold AUDIO_CHANNEL_NONE at h
  unfold ChannelMix.matrixProcess AUDIO_CHANNEL_NONE
  rw [if_neg h]
  dsimp only
  refine ⟨rfl, ?_, ?_⟩
  · intro f hf
    constructor
    · rw [matrixLoop_left _ _ _ _ _ _ _ _ hf]
      congr 1
      ring
    · rw [matrixLoop_right _ _ _ _ _ _ _ _ hf]
      congr 1
      ring
  · intro k hk
    exact matrixLoop_untouched _ _ _ _ _ _ _ _ hk

/-- C6: the saturation helper is exactly `min(max(x, -1), 1)`, and after
every successful mix — on every dispatch path, with or without
accumulation — every written destination sample lies in `[-1, 1]`. -/
theorem C6_clamp_contract_and_output_bounds (s : ChannelMix)
    (src dst : Nat → ℚ) (frameCount : Nat) (accumulate : Bool)
    (h : (s.process src dst frameCount accumulate).1 = true) :
    (∀ x : ℚ, clamp x = min (max x (-1)) 1) ∧
    ∀ k, k < 2 * frameCount →
      -1 ≤ (s.process src dst frameCount accumulate).2 k ∧
      (s.process src dst frameCount accumulate).2 k ≤ 1 := by
  have hmask : s.mInputChannelMask ≠ 0 := by
    intro h0
    have hfalse := (process_fst_iff s src dst frameCount accumulate).mpr h0
    rw [h] at hfalse
    exact Bool.noConfusion hfalse
  refine ⟨clamp_eq_min_max, ?_⟩
  intro k hk
  rcases Nat.even_or_odd k with ⟨f, hf⟩ | ⟨f, hf⟩
  · have hkf : k = 2 * f := by omega
    subst hkf
    rw [process_left s src dst frameCount accumulate hmask f (by omega)]
    exact ⟨neg_one_le_clamp _, clamp_le_one _⟩
  · have hkf : k = 2 * f + 1 := by omega
    subst hkf
    rw [process_right s src dst frameCount accumulate hmask f (by omega)]
    exact ⟨neg_one_le_clamp _, clamp_le_one _⟩

/-- C7: accumulate linearity away from saturation. If every per-frame
contribution and its double stay within `[-1, 1]`, then mixing twice with
`accumulate = true` into a zero destination equals mixing once with
`accumulate = false` with every output doubled. -/
theorem C7_accumulate_linearity (s : ChannelMix) (src : Nat → ℚ)
    (frameCount : Nat) (h : s.mInputChannelMask ≠ AUDIO_CHANNEL_NONE)
    (hb : ∀ f, f < frameCount →
      (-1 ≤ (frameContrib s src f).1 ∧ (frameContrib s src f).1 ≤ 1 ∧
       -1 ≤ 2 * (frameContrib s src f).1 ∧ 2 * (frameContrib s src f).1 ≤ 1) ∧
      (-1 ≤ (frameContrib s src f).2 ∧ (frameContrib s src f).2 ≤ 1 ∧
       -1 ≤ 2 * (frameContrib s src f).2 ∧ 2 * (frameContrib s src f).2 ≤ 1)) :
    ∀ k, k < 2 * frameCount →
      (s.process src ((s.process src (fun _ => 0) frameCount true).2)
        frameCount true).2 k =
      2 * (s.process src (fun _ => 0) frameCount false).2 k := by
  unfold AUDIO_CHANNEL_NONE at h
  intro k hk
  rcases Nat.even_or_odd k with ⟨f, hf⟩ | ⟨f, hf⟩
  · have hkf : k = 2 * f := by omega
    subst hkf
    have hff : f < frameCount := by omega
    obtain ⟨⟨hc1, hc2, hd1, hd2⟩, -⟩ := hb f hff
    have h1 : (s.process src (fun _ => 0) frameCount true).2 (2 * f) =
        (frameContrib s src f).1 := by
      rw [process_left s src _ frameCount true h f hff]
      simp only [if_true, add_zero]
      exact clamp_eq_self _ (by linarith) (by linarith)
    have h2 : (s.process src (fun _ => 0) frameCount false).2 (2 * f) =
        (frameContrib s src f).1 := by
      rw [process_left s src _ frameCount false h f hff]
      simp only [Bool.false_eq_true, if_false, add_zero]
      exact clamp_eq_self _ (by linarith) (by linarith)
    rw [process_left s src _ frameCount true h f hff, h2, if_pos rfl, h1,
      clamp_eq_self _ (by linarith) (by linarith)]
    ring
  · have hkf : k = 2 * f + 1 := by omega
    subst hkf
    have hff : f < frameCount := by omega
    obtain ⟨-, hc1, hc2, hd1, hd2⟩ := hb f hff
    have h1 : (s.process src (fun _ => 0) frameCount true).2 (2 * f + 1) =
        (frameContrib s src f).2 := by
      rw [process_right s src _ frameCount true h f hff]
      simp only [if_true, add_zero]
      exact clamp_eq_self _ (by linarith) (by linarith)
    have h2 : (s.process src (fun _ => 0) frameCount false).2 (2 * f + 1) =
        (frameContrib s src f).2 := by
      rw [process_right s src _ frameCount false h f hff]
      simp only [Bool.false_eq_true, if_false, add_zero]
      exact clamp_eq_self _ (by linarith) (by linarith)
    rw [process_right s src _ frameCount true h f hff, h2, if_pos rfl, h1,
      clamp_eq_self _ (by linarith) (by linarith)]
    ring

/-- C1 witness: the quad-back conjunct applied to the default-constructed
mixer with concrete buffers. -/
theorem C1_fast_path_equals_matrix_witness :
    ChannelMix.init.mInputChannelMask ≠ AUDIO_CHANNEL_OUT_QUAD_BACK ∧
    specificProcess 4 false (fun i => (i : ℚ)) (fun _ => 0) 2 =
      ((ChannelMix.init.setInputChannelMask AUDIO_CHANNEL_OUT_QUAD_BACK).2).matrixProcess
        (fun i => (i : ℚ)) (fun _ => 0) 2 false :=
  ⟨by decide,
   (C1_fast_path_equals_matrix ChannelMix.init (fun i => (i : ℚ))
      (fun _ => 0) 2 false).1 (by decide)⟩

/-- C5 witness: a stereo-configured mixer on the generic path succeeds at a
concrete input. -/
theorem C5_matrix_frame_formula_witness :
    ((ChannelMix.init.setInputChannelMask 3).2).mInputChannelMask ≠
      AUDIO_CHANNEL_NONE ∧
    (((ChannelMix.init.setInputChannelMask 3).2).matrixProcess
      (fun _ => 1) (fun _ => 0) 1 false).1 = true :=
  ⟨by decide,
   (C5_matrix_frame_formula ((ChannelMix.init.setInputChannelMask 3).2)
      (fun _ => 1) (fun _ => 0) 1 false (by decide)).1⟩

/-- C6 witness: accumulating a 0.3 contribution onto a destination
pre-filled with 0.9 would reach 1.2 and is clamped to exactly 1, and the
bounds hold. -/
theorem C6_clamp_contract_and_output_bounds_witness :
    (((ChannelMix.init.setInputChannelMask 3).2).process
      (fun _ => 3/5) (fun _ => 9/10) 1 true).1 = true ∧
    (-1 ≤ (((ChannelMix.init.setInputChannelMask 3).2).process
        (fun _ => 3/5) (fun _ => 9/10) 1 true).2 0 ∧
      (((ChannelMix.init.setInputChannelMask 3).2).process
        (fun _ => 3/5) (fun _ => 9/10) 1 true).2 0 ≤ 1) ∧
    (((ChannelMix.init.setInputChannelMask 3).2).process
      (fun _ => 3/5) (fun _ => 9/10) 1 true).2 0 = 1 := by
  have hmask : ((ChannelMix.init.setInputChannelMask 3).2).mInputChannelMask ≠ 0 := by
    decide
  have htrue : (((ChannelMix.init.setInputChannelMask 3).2).process
      (fun _ => 3/5) (fun _ => 9/10) 1 true).1 = true := by
    cases hb : (((ChannelMix.init.setInputChannelMask 3).2).process
        (fun _ => 3/5) (fun _ => 9/10) 1 true).1 with
    | false => exact absurd ((process_fst_iff _ _ _ _ _).mp hb) hmask
    | true => rfl
  refine ⟨htrue,
    (C6_clamp_contract_and_output_bounds _ _ _ _ _ htrue).2 0 (by omega), ?_⟩
  have hpl := process_left ((ChannelMix.init.setInputChannelMask 3).2)
    (fun _ => 3/5) (fun _ => 9/10) 1 true hmask 0 (by omega)
  rw [frameContrib_stereo ChannelMix.init (by decide)] at hpl
  norm_num at hpl
  rw [hpl]
  norm_num [clamp, LIMIT_AMPLITUDE]

/-- C7 witness: stereo mask, constant quarter-amplitude input, one frame. -/
theorem C7_accumulate_linearity_witness :
    ((ChannelMix.init.setInputChannelMask 3).2).mInputChannelMask ≠
      AUDIO_CHANNEL_NONE ∧
    (∀ k, k < 2 * 1 →
      (((ChannelMix.init.setInputChannelMask 3).2).process (fun _ => 1/4)
        ((((ChannelMix.init.setInputChannelMask 3).2).process (fun _ => 1/4)
          (fun _ => 0) 1 true).2) 1 true).2 k =
      2 * (((ChannelMix.init.setInputChannelMask 3).2).process (fun _ => 1/4)
        (fun _ => 0) 1 false).2 k) := by
  refine ⟨by decide, C7_accumulate_linearity _ _ 1 (by decide) ?_⟩
  intro f hf
  have hf0 : f = 0 := by omega
  subst hf0
  rw [frameContrib_stereo ChannelMix.init (by decide)]
  norm_num

/-- C3: configuring a mask with a bit outside the 24 supported position
slots fails and leaves the whole mixer state (the full record: mask, gain
table, channel count, last-contributing index) unchanged; in particular
`getInputChannelMask` still reports the prior mask. The hypothesis that
the stored mask is in range holds for every reachable state (the initial
mask is 0 and only validated masks are ever stored). -/
theorem C3_invalid_mask_preserves_state (s : ChannelMix) (m : Nat)
    (hvalid : s.mInputChannelMask < 2 ^ FCC_24) (hbad : 2 ^ FCC_24 ≤ m) :
    s.setInputChannelMask m = (false, s) ∧
    ((s.setInputChannelMask m).2).getInputChannelMask = s.mInputChannelMask ∧
    (∀ m2, ((s.setInputChannelMask m2).2).mInputChannelMask < 2 ^ FCC_24) := by
  have hne : s.mInputChannelMask ≠ m := by omega
  have h1 : s.setInputChannelMask m = (false, s) := by
    unfold ChannelMix.setInputChannelMask
    rw [if_neg hne, if_pos hbad]
  refine ⟨h1, by rw [h1]; rfl, ?_⟩
  intro m2
  unfold ChannelMix.setInputChannelMask
  by_cases he : s.mInputChannelMask = m2
  · rw [if_pos he]
    exact hvalid
  rw [if_neg he]
  by_cases hv : 2 ^ FCC_24 ≤ m2
  · rw [if_pos hv]
    exact hvalid
  · rw [if_neg hv]
    show m2 < 2 ^ FCC_24
    omega

/-- C3 witness: a mixer configured with the stereo mask rejects `2^24` and
keeps its state. -/
theorem C3_invalid_mask_preserves_state_witness :
    ((ChannelMix.init.setInputChannelMask 3).2).mInputChannelMask < 2 ^ FCC_24 ∧
    2 ^ FCC_24 ≤ 2 ^ 24 ∧
    ((ChannelMix.init.setInputChannelMask 3).2).setInputChannelMask (2 ^ 24) =
      (false, (ChannelMix.init.setInputChannelMask 3).2) :=
  ⟨by decide, by decide,
   (C3_invalid_mask_preserves_state ((ChannelMix.init.setInputChannelMask 3).2)
      (2 ^ 24) (by decide) (by decide)).1⟩

/-- C8: configuring the currently-configured mask is a successful no-op,
and a second identical `configure` right after a first one never changes
the state reached after the first call. -/
theorem C8_configure_idempotent (s : ChannelMix) (m : Nat) :
    (s.mInputChannelMask = m → s.setInputChannelMask m = (true, s)) ∧
    (((s.setInputChannelMask m).2).setInputChannelMask m).2 =
      (s.setInputChannelMask m).2 := by
  refine ⟨configure_noop s m, ?_⟩
  by_cases he : s.mInputChannelMask = m
  · simp only [configure_noop s m he]
  · by_cases hv : 2 ^ FCC_24 ≤ m
    · have h1 : s.setInputChannelMask m = (false, s) := by
        unfold ChannelMix.setInputChannelMask
        rw [if_neg he, if_pos hv]
      simp only [h1]
    · have h2 : ((s.setInputChannelMask m).2).mInputChannelMask = m := by
        unfold ChannelMix.setInputChannelMask
        rw [if_neg he, if_neg hv]
      rw [configure_noop _ m h2]

/-- C8 witness: the default mixer already holds mask 0, so requesting 0 is
a successful no-op. -/
theorem C8_configure_idempotent_witness :
    ChannelMix.init.mInputChannelMask = 0 ∧
    ChannelMix.init.setInputChannelMask 0 = (true, ChannelMix.init) :=
  ⟨rfl, (C8_configure_idempotent ChannelMix.init 0).1 rfl⟩

/-- C10: `setInputChannelMask(AUDIO_CHANNEL_NONE)` is accepted on every
state and transitions the mixer back to the unconfigured state: afterwards
`getInputChannelMask` is `AUDIO_CHANNEL_NONE`, every mix fails without
writing, and the five-argument `process` convenience form returns `false`
even though it has replaced the configuration with mask `NONE`. -/
theorem C10_configure_none_unconfigures (s : ChannelMix) (src dst : Nat → ℚ)
    (frameCount : Nat) (accumulate : Bool) :
    (s.setInputChannelMask AUDIO_CHANNEL_NONE).1 = true ∧
    ((s.setInputChannelMask AUDIO_CHANNEL_NONE).2).getInputChannelMask =
      AUDIO_CHANNEL_NONE ∧
    (((s.setInputChannelMask AUDIO_CHANNEL_NONE).2).process src dst
      frameCount accumulate).1 = false ∧
    (((s.setInputChannelMask AUDIO_CHANNEL_NONE).2).process src dst
      frameCount accumulate).2 = dst ∧
    (s.processWithMask src dst frameCount accumulate AUDIO_CHANNEL_NONE).1 =
      false ∧
    ((s.processWithMask src dst frameCount accumulate
      AUDIO_CHANNEL_NONE).2.1).mInputChannelMask = AUDIO_CHANNEL_NONE := by
  obtain ⟨h1, h2⟩ := configure_none s
  refine ⟨h1, h2, ?_, ?_, ?_, ?_⟩
  · exact (process_fst_iff _ _ _ _ _).mpr h2
  · exact process_mask_zero_dst _ _ _ _ _ h2
  · simp only [ChannelMix.processWithMask, h1, if_true]
    exact (process_fst_iff _ _ _ _ _).mpr h2
  · simp only [ChannelMix.processWithMask, h1, if_true]
    exact h2

/-- C2 counterexample: the claim "after every successful configure call,
every gain-table entry at an index at or beyond the last recognized
channel is (0,0)" and its "for any mixer state" unrecognized-mask scenario
both fail on the code. Reconfiguring a quad-back mixer down to the
front-left-only mask 1 succeeds and leaves the stale quad row `(0, 1/2)`
at index 1 ≥ lastContributingIndex = 1; and reconfiguring a 7.1 mixer to
the unrecognized-only mask 64 succeeds but keeps the stale
lastContributingIndex 8, so a subsequent mix of an all-ones input writes
`dst[0] = 1 ≠ 0`. -/
theorem C2_counterexample :
    (((ChannelMix.init.setInputChannelMask
        AUDIO_CHANNEL_OUT_QUAD_BACK).2).setInputChannelMask 1).1 = true ∧
    (((ChannelMix.init.setInputChannelMask
        AUDIO_CHANNEL_OUT_QUAD_BACK).2).setInputChannelMask 1).2.mLastValidChannelIndexPlusOne = 1 ∧
    (((ChannelMix.init.setInputChannelMask
        AUDIO_CHANNEL_OUT_QUAD_BACK).2).setInputChannelMask 1).2.mMatrix 1 = (0, 1/2) ∧
    ((0 : ℚ), (1 : ℚ)/2) ≠ ((0 : ℚ), (0 : ℚ)) ∧
    (((ChannelMix.init.setInputChannelMask
        AUDIO_CHANNEL_OUT_7POINT1).2).setInputChannelMask 64).1 = true ∧
    ((((ChannelMix.init.setInputChannelMask
        AUDIO_CHANNEL_OUT_7POINT1).2).setInputChannelMask 64).2.process
      (fun _ => 1) (fun _ => 0) 1 false).2 0 = 1 := by
  obtain ⟨-, hqm, hqc, hql, hq0, hq1, hq2, hq3⟩ :=
    configure_rows_quadBack ChannelMix.init (by decide)
  obtain ⟨hft, hfm, hfc, hfl, hf0, hfrest⟩ :=
    configure_rows_frontLeftOnly
      ((ChannelMix.init.setInputChannelMask AUDIO_CHANNEL_OUT_QUAD_BACK).2)
      (by rw [hqm]; omega)
  obtain ⟨-, h7m, h7c, h7l, h70, h71, h72, h73, h74, h75, h76, h77⟩ :=
    configure_rows_seven ChannelMix.init (by decide)
  obtain ⟨hut, hum, huc, hul, hu0, hurest⟩ :=
    configure_rows_flc
      ((ChannelMix.init.setInputChannelMask AUDIO_CHANNEL_OUT_7POINT1).2)
      (by rw [h7m]; omega)
  refine ⟨hft, hfl, ?_, by norm_num, hut, ?_⟩
  · rw [hfrest 1 (by omega), hq1]
  · have hmask : (((ChannelMix.init.setInputChannelMask
        AUDIO_CHANNEL_OUT_7POINT1).2).setInputChannelMask 64).2.mInputChannelMask ≠ 0 := by
      rw [hum]; omega
    have hpl := process_left _ (fun _ => 1) (fun _ => 0) 1 false hmask 0 (by omega)
    norm_num at hpl
    rw [hpl]
    unfold frameContrib
    rw [if_neg (show ¬_ by rw [hum]; decide),
      if_neg (show ¬_ by rw [hum]; decide),
      if_neg (show ¬_ by rw [hum]; decide)]
    rw [hul, h7l]
    have hrows : ∀ i, i ≠ 0 →
        ((((ChannelMix.init.setInputChannelMask
          AUDIO_CHANNEL_OUT_7POINT1).2).setInputChannelMask 64).2.mMatrix i) =
        ((ChannelMix.init.setInputChannelMask
          AUDIO_CHANNEL_OUT_7POINT1).2).mMatrix i := hurest
    simp only [Finset.sum_range_succ, Finset.sum_range_zero, hu0,
      hrows 1 (by omega), hrows 2 (by omega), hrows 3 (by omega),
      hrows 4 (by omega), hrows 5 (by omega), hrows 6 (by omega),
      hrows 7 (by omega), h71, h72, h73, h74, h75, h76, h77]
    norm_num [clamp, LIMIT_AMPLITUDE, MINUS_3_DB_IN_FLOAT]

/-- C2 (amended): (a) if the gain table already satisfies the invariant
"rows in [lastContributingIndex, channelCount) are (0,0)", any configure
call preserves it — rows at index ≥ channelCount may keep stale gains and
are simply never read by the generic mixer, which stops at
lastContributingIndex; (b) the default-constructed mixer satisfies the
invariant; (c) the unrecognized-only-mask scenario holds from a freshly
constructed mixer: configuring a nonzero in-range mask whose set bits are
all unrecognized succeeds, and a subsequent overwriting mix writes 0 to
every destination sample (lastContributingIndex is 0, so no channel
contributes). -/
theorem C2_amended_zero_rows (s : ChannelMix) (m : Nat) :
    ((∀ j, s.mLastValidChannelIndexPlusOne ≤ j → j < s.mInputChannelCount →
        s.mMatrix j = (0, 0)) →
      ∀ j, ((s.setInputChannelMask m).2).mLastValidChannelIndexPlusOne ≤ j →
        j < ((s.setInputChannelMask m).2).mInputChannelCount →
        ((s.setInputChannelMask m).2).mMatrix j = (0, 0)) ∧
    (∀ j, ChannelMix.init.mLastValidChannelIndexPlusOne ≤ j →
      j < ChannelMix.init.mInputChannelCount →
      ChannelMix.init.mMatrix j = (0, 0)) ∧
    (m ≠ 0 → m < 2 ^ FCC_24 →
      (∀ b, b < FCC_24 → Nat.testBit m b → recognizedBit (2 ^ b) = false) →
      (ChannelMix.init.setInputChannelMask m).1 = true ∧
      ∀ (src dst : Nat → ℚ) (frameCount k : Nat), k < 2 * frameCount →
        (((ChannelMix.init.setInputChannelMask m).2).process src dst
          frameCount false).2 k = 0) := by
  refine ⟨?_, ?_, ?_⟩
  · intro hTab j hj1 hj2
    by_cases he : s.mInputChannelMask = m
    · simp only [configure_noop s m he] at hj1 hj2 ⊢
      exact hTab j hj1 hj2
    · by_cases hv : 2 ^ FCC_24 ≤ m
      · have h1 : s.setInputChannelMask m = (false, s) := by
          unfold ChannelMix.setInputChannelMask
          rw [if_neg he, if_pos hv]
        simp only [h1] at hj1 hj2 ⊢
        exact hTab j hj1 hj2
      · have h1 : (s.setInputChannelMask m).2 =
            { mMatrix := (decodeRows m (List.range FCC_24)
                (s.mMatrix, s.mLastValidChannelIndexPlusOne, 0)).1
              mInputChannelMask := m
              mLastValidChannelIndexPlusOne := (decodeRows m (List.range FCC_24)
                (s.mMatrix, s.mLastValidChannelIndexPlusOne, 0)).2.1
              mInputChannelCount := (decodeRows m (List.range FCC_24)
                (s.mMatrix, s.mLastValidChannelIndexPlusOne, 0)).2.2 } := by
          unfold ChannelMix.setInputChannelMask
          rw [if_neg he, if_neg hv]
        rw [h1] at hj1 hj2 ⊢
        exact decodeRows_zero_rows m (List.range FCC_24) s.mMatrix
          s.mLastValidChannelIndexPlusOne 0
          (fun j _ hlt => absurd hlt (Nat.not_lt_zero j)) j hj1 hj2
  · intro j hj1 hj2
    exact absurd hj2 (by simp [ChannelMix.init])
  · intro hm0 hmlt hunrec
    have hne : ChannelMix.init.mInputChannelMask ≠ m := by
      intro he
      exact hm0 he.symm
    have hv : ¬ 2 ^ FCC_24 ≤ m := by omega
    have h1 : ChannelMix.init.setInputChannelMask m =
        (true,
          { mMatrix := (decodeRows m (List.range FCC_24)
              (ChannelMix.init.mMatrix, ChannelMix.init.mLastValidChannelIndexPlusOne, 0)).1
            mInputChannelMask := m
            mLastValidChannelIndexPlusOne := (decodeRows m (List.range FCC_24)
              (ChannelMix.init.mMatrix, ChannelMix.init.mLastValidChannelIndexPlusOne, 0)).2.1
            mInputChannelCount := (decodeRows m (List.range FCC_24)
              (ChannelMix.init.mMatrix, ChannelMix.init.mLastValidChannelIndexPlusOne, 0)).2.2 }) := by
      unfold ChannelMix.setInputChannelMask
      rw [if_neg hne, if_neg hv]
    have hlv : ((ChannelMix.init.setInputChannelMask m).2).mLastValidChannelIndexPlusOne = 0 := by
      rw [h1]
      exact decodeRows_lastValid_const m (List.range FCC_24) _ _ _
        (fun b hb htb => hunrec b (by simpa [FCC_24] using List.mem_range.mp hb) htb)
    have hmask : ((ChannelMix.init.setInputChannelMask m).2).mInputChannelMask = m := by
      rw [h1]
    have hbit0 : ∀ c : Nat, Nat.testBit c 0 = true → recognizedBit 1 = true →
        m ≠ c := by
      intro c htc hrc he
      subst he
      have := hunrec 0 (by norm_num [FCC_24]) (by rw [htc])
      rw [show (2 : Nat) ^ 0 = 1 from rfl] at this
      rw [hrc] at this
      exact Bool.noConfusion this
    refine ⟨by rw [h1], ?_⟩
    intro src dst frameCount k hk
    have hmne : ((ChannelMix.init.setInputChannelMask m).2).mInputChannelMask ≠ 0 := by
      rw [hmask]; exact hm0
    have hcontrib : ∀ f, frameContrib ((ChannelMix.init.setInputChannelMask m).2) src f = (0, 0) := by
      intro f
      unfold frameContrib
      rw [if_neg (show ¬_ by
            rw [hmask]
            rintro (he | he)
            · exact hbit0 AUDIO_CHANNEL_OUT_QUAD_BACK (by decide) (by decide) he
            · exact hbit0 AUDIO_CHANNEL_OUT_QUAD_SIDE (by decide) (by decide) he),
        if_neg (show ¬_ by
            rw [hmask]
            rintro (he | he)
            · exact hbit0 AUDIO_CHANNEL_OUT_5POINT1_BACK (by decide) (by decide) he
            · exact hbit0 AUDIO_CHANNEL_OUT_5POINT1_SIDE (by decide) (by decide) he),
        if_neg (show ¬_ by
            rw [hmask]
            intro he
            exact hbit0 AUDIO_CHANNEL_OUT_7POINT1 (by decide) (by decide) he)]
      rw [hlv]
      simp
    rcases Nat.even_or_odd k with ⟨f, hf⟩ | ⟨f, hf⟩
    · have hkf : k = 2 * f := by omega
      subst hkf
      rw [process_left _ src dst frameCount false hmne f (by omega), hcontrib f]
      norm_num [clamp, LIMIT_AMPLITUDE]
    · have hkf : k = 2 * f + 1 := by omega
      subst hkf
      rw [process_right _ src dst frameCount false hmne f (by omega), hcontrib f]
      norm_num [clamp, LIMIT_AMPLITUDE]

/-- C2 amended witness: part (c) at the concrete unrecognized-only mask 64
(and part (a) seeded with part (b) at the quad-back mask). -/
theorem C2_amended_zero_rows_witness :
    ((64 : Nat) ≠ 0 ∧ (64 : Nat) < 2 ^ FCC_24 ∧
      (∀ b, b < FCC_24 → Nat.testBit 64 b → recognizedBit (2 ^ b) = false)) ∧
    (ChannelMix.init.setInputChannelMask 64).1 = true ∧
    (((ChannelMix.init.setInputChannelMask 64).2).process (fun _ => 1)
      (fun _ => 1) 1 false).2 0 = 0 ∧
    (∀ j, ((ChannelMix.init.setInputChannelMask 51).2).mLastValidChannelIndexPlusOne ≤ j →
      j < ((ChannelMix.init.setInputChannelMask 51).2).mInputChannelCount →
      ((ChannelMix.init.setInputChannelMask 51).2).mMatrix j = (0, 0)) := by
  have h64 := (C2_amended_zero_rows ChannelMix.init 64).2.2 (by decide) (by decide)
    (by decide)
  exact ⟨⟨by decide, by decide, by decide⟩, h64.1,
    h64.2 (fun _ => 1) (fun _ => 1) 1 0 (by omega),
    (C2_amended_zero_rows ChannelMix.init 51).1
      (C2_amended_zero_rows ChannelMix.init 51).2.1⟩

/-- C9: for every configured mask composed solely of mirrored left/right
pairs (any nonempty union of FL|FR, BL|BR, SL|SR — each pair occupies
consecutive interleaved slots), mixing the input with every mirrored pair's
samples swapped, into a destination with its stereo pairs swapped, swaps
the left and right output samples of every written frame — both on the
generic path and on the quad fast paths that two of these masks hit. -/
theorem C9_mirrored_pairs_swap (s : ChannelMix) (a b c : Bool) (m : Nat)
    (hm : m = (cond a 3 0) + (cond b 48 0) + (cond c 1536 0))
    (habc : a = true ∨ b = true ∨ c = true)
    (hne : s.mInputChannelMask ≠ m)
    (src dst : Nat → ℚ) (frameCount : Nat) (accumulate : Bool) :
    ∀ k, k < 2 * frameCount →
      (((s.setInputChannelMask m).2).process (swapLR src) (swapLR dst)
        frameCount accumulate).2 k =
      swapLR (((s.setInputChannelMask m).2).process src dst frameCount
        accumulate).2 k := by
  cases a <;> cases b <;> cases c <;>
    simp only [Bool.cond_false, Bool.cond_true] at hm <;> norm_num at hm <;>
    try subst hm
  · simp at habc
  · -- SL|SR = 1536
    obtain ⟨-, hmm, hc, hl, h0, h1⟩ := configure_rows_sidePair s hne
    exact process_swap_of_contrib _ (by rw [hmm]; omega) src dst frameCount
      accumulate
      (fun f => frameContrib_swap_generic _ 1
        (by rw [hmm]; decide) (by rw [hmm]; decide) (by rw [hmm]; decide)
        (by rw [hl]) (by rw [hc])
        (fun j hj => by
          have hj0 : j = 0 := by omega
          subst hj0
          exact ⟨by simpa using h0, by simpa using h1⟩) src f)
  · -- BL|BR = 48
    obtain ⟨-, hmm, hc, hl, h0, h1⟩ := configure_rows_backPair s hne
    exact process_swap_of_contrib _ (by rw [hmm]; omega) src dst frameCount
      accumulate
      (fun f => frameContrib_swap_generic _ 1
        (by rw [hmm]; decide) (by rw [hmm]; decide) (by rw [hmm]; decide)
        (by rw [hl]) (by rw [hc])
        (fun j hj => by
          have hj0 : j = 0 := by omega
          subst hj0
          exact ⟨by simpa using h0, by simpa using h1⟩) src f)
  · -- BL|BR|SL|SR = 1584
    obtain ⟨-, hmm, hc, hl, h0, h1, h2, h3⟩ := configure_rows_backSide s hne
    exact process_swap_of_contrib _ (by rw [hmm]; omega) src dst frameCount
      accumulate
      (fun f => frameContrib_swap_generic _ 2
        (by rw [hmm]; decide) (by rw [hmm]; decide) (by rw [hmm]; decide)
        (by rw [hl]) (by rw [hc])
        (fun j hj => by
          match j, hj with
          | 0, _ => exact ⟨by simpa using h0, by simpa using h1⟩
          | 1, _ => exact ⟨by simpa using h2, by simpa using h3⟩) src f)
  · -- FL|FR = 3
    obtain ⟨-, hmm, hc, hl, h0, h1⟩ := configure_rows_stereo s hne
    exact process_swap_of_contrib _ (by rw [hmm]; omega) src dst frameCount
      accumulate
      (fun f => frameContrib_swap_generic _ 1
        (by rw [hmm]; decide) (by rw [hmm]; decide) (by rw [hmm]; decide)
        (by rw [hl]) (by rw [hc])
        (fun j hj => by
          have hj0 : j = 0 := by omega
          subst hj0
          exact ⟨by simpa using h0, by simpa using h1⟩) src f)
  · -- FL|FR|SL|SR = 1539 (quad-side fast path)
    rw [show (1539 : Nat) = AUDIO_CHANNEL_OUT_QUAD_SIDE from rfl] at hne ⊢
    obtain ⟨-, hmm, hc, hl, h0, h1, h2, h3⟩ := configure_rows_quadSide s hne
    exact process_swap_of_contrib _ (by rw [hmm]; omega) src dst frameCount
      accumulate
      (fun f => frameContrib_swap_fastquad _ (Or.inr hmm) src f)
  · -- FL|FR|BL|BR = 51 (quad-back fast path)
    rw [show (51 : Nat) = AUDIO_CHANNEL_OUT_QUAD_BACK from rfl] at hne ⊢
    obtain ⟨-, hmm, hc, hl, h0, h1, h2, h3⟩ := configure_rows_quadBack s hne
    exact process_swap_of_contrib _ (by rw [hmm]; omega) src dst frameCount
      accumulate
      (fun f => frameContrib_swap_fastquad _ (Or.inl hmm) src f)
  · -- FL|FR|BL|BR|SL|SR = 1587
    obtain ⟨-, hmm, hc, hl, h0, h1, h2, h3, h4, h5⟩ := configure_rows_allPairs s hne
    exact process_swap_of_contrib _ (by rw [hmm]; omega) src dst frameCount
      accumulate
      (fun f => frameContrib_swap_generic _ 3
        (by rw [hmm]; decide) (by rw [hmm]; decide) (by rw [hmm]; decide)
        (by rw [hl]) (by rw [hc])
        (fun j hj => by
          match j, hj with
          | 0, _ => exact ⟨by simpa using h0, by simpa using h1⟩
          | 1, _ => exact ⟨by simpa using h2, by simpa using h3⟩
          | 2, _ => exact ⟨by simpa using h4, by simpa using h5⟩) src f)

/-- C9 witness: the quad-back pair mask on the default mixer with a
concrete ramp input. -/
theorem C9_mirrored_pairs_swap_witness :
    ((51 : Nat) = (cond true 3 0) + (cond true 48 0) + (cond false 1536 0)) ∧
    ChannelMix.init.mInputChannelMask ≠ 51 ∧
    (∀ k, k < 2 * 1 →
      (((ChannelMix.init.setInputChannelMask 51).2).process
        (swapLR (fun i => (i : ℚ))) (swapLR (fun _ => 0)) 1 false).2 k =
      swapLR (((ChannelMix.init.setInputChannelMask 51).2).process
        (fun i => (i : ℚ)) (fun _ => 0) 1 false).2 k) :=
  ⟨by decide, by decide,
   C9_mirrored_pairs_swap ChannelMix.init true true false 51 (by decide)
     (Or.inl rfl) (by decide) (fun i => (i : ℚ)) (fun _ => 0) 1 false⟩

end ChannelMixModel
